import Mathlib

/-!
Verification of the Cnav calendar / date-time core against its specification.

The development shallowly embeds the Python sources:

* `cnav/dtmath.py`   (module-level JD / MJD / RJD / proleptic calendars),
* `cnav/calendar.py` (the `Calendar` engine with a configurable reform),
* `cnav/dt2.py` and `cnav/dt.py` (the `TimeDelta` and `Date` value types).

Python float arithmetic is embedded as exact rational arithmetic (`ℚ`).
This is exact for every expression occurring in the sources on the
supported year range [-4712, 9999]: every intermediate value there is a
multiple of 1/48 of magnitude below 2^52, and each comparison or floor
sits at distance at least 1/10000 of a unit from the decision boundary,
far above the roundoff of IEEE double arithmetic (relative error 2^-53),
so double evaluation and exact rational evaluation agree.

Python integer `//` and `%` (floor division, used with positive divisors
only) are embedded as `Int`'s `/` and `%` (Euclidean division, which for a
positive divisor is exactly floor division).  Python's `int(x)` conversion
(truncation towards zero) is embedded as `pytrunc`, `Int.tdiv` on
quotients of integers.
-/

namespace Cnav

/-- Python `int(x)` applied to a real value: truncation towards zero. -/
def pytrunc (q : ℚ) : ℤ := if 0 ≤ q then ⌊q⌋ else -⌊-q⌋

/-- Python float `x // y` (floor division) with `y > 0`, as an integer. -/
def pyfloorDiv (a b : ℚ) : ℤ := ⌊a / b⌋

/-- Error signals raised by the Python code: `OverflowError`,
`AssertionError`, `ValueError`, `TypeError`, and the `NameError` raised
when an undefined name is evaluated. -/
inductive PyErr where
  | overflow
  | assertFail
  | value
  | typeErr
  | nameErr
deriving DecidableEq, Repr

theorem tdiv_eq_ediv_nonneg (a b : ℤ) (ha : 0 ≤ a) (hb : 0 ≤ b) : a.tdiv b = a / b := by
  lift a to ℕ using ha
  lift b to ℕ using hb
  rfl

theorem floor_intCast_div (a b : ℤ) (hb : 0 < b) : ⌊(a : ℚ) / (b : ℚ)⌋ = a / b := by
  obtain ⟨k, rfl⟩ : ∃ k : ℕ, b = (k : ℤ) := ⟨b.toNat, (Int.toNat_of_nonneg hb.le).symm⟩
  exact_mod_cast Rat.floor_intCast_div_natCast a k

theorem pytrunc_intCast (n : ℤ) : pytrunc (n : ℚ) = n := by
  unfold pytrunc
  split
  · exact Int.floor_intCast n
  · rw [show -((n : ℤ) : ℚ) = ((-n : ℤ) : ℚ) by push_cast; ring, Int.floor_intCast, neg_neg]

theorem pytrunc_intCast_div (a b : ℤ) (hb : 0 < b) :
    pytrunc ((a : ℚ) / (b : ℚ)) = a.tdiv b := by
  unfold pytrunc
  rcases le_or_lt 0 a with ha | ha
  · rw [if_pos (by positivity), floor_intCast_div a b hb, tdiv_eq_ediv_nonneg a b ha hb.le]
  · have hb' : (0 : ℚ) < (b : ℚ) := by exact_mod_cast hb
    have ha' : ((a : ℚ)) < 0 := by exact_mod_cast ha
    rw [if_neg (by simp only [not_le]; exact div_neg_of_neg_of_pos ha' hb'),
      show -((a : ℚ) / (b : ℚ)) = ((-a : ℤ) : ℚ) / (b : ℚ) by push_cast; ring,
      floor_intCast_div _ b hb, ← tdiv_eq_ediv_nonneg (-a) b (by omega) hb.le,
      Int.neg_tdiv, neg_neg]

theorem pyfloorDiv_intCast (a b : ℤ) (hb : 0 < b) :
    pyfloorDiv (a : ℚ) (b : ℚ) = a / b := by
  unfold pyfloorDiv
  exact floor_intCast_div a b hb

namespace dtmath

/-- From `dtmath.is_gregorian`: the float heuristic
`(YYYY + MM/12) * 365.25 + DD > 578140` deciding that a date belongs to
the Gregorian part of the mixed calendar. -/
def is_gregorian (y m d : ℤ) : Bool :=
  decide (((y : ℚ) + (m : ℚ) / 12) * 365.25 + (d : ℚ) > 578140)

/-- From `dtmath.is_leapyear`: reform-aware leap-year test. -/
def is_leapyear (y : ℤ) : Bool :=
  if is_gregorian y 2 28 then
    if y % 4 = 0 then
      if y % 400 = 0 then true
      else if y % 100 = 0 then false else true
    else false
  else
    if y % 4 = 0 then true else false

/-- Arithmetic part of `dtmath.JD` (after the guards): the Meeus formula.
`int(...)` is truncation, `int(Y/100)` and `int(A/4)` are `Int.tdiv`.
The two table lookups are embedded exactly:
`int(365.25*(Y+4716)) = (1461*(Y+4716)).tdiv 4` (365.25 is a binary
float, the product is exact), and for months 1..12 (so `M+1` in 4..15)
`int(30.6001*(M+1)) = (306001*(M+1)).tdiv 10000`: each product sits at
distance at least 4e-4 from the nearest integer while the double
roundoff on this range stays below 1e-9. -/
def JDraw (y m : ℤ) (d : ℚ) : ℚ :=
  let Y := if m ≤ 2 then y - 1 else y
  let M := if m ≤ 2 then m + 12 else m
  let A := Int.tdiv Y 100
  let B : ℤ :=
    if ((y : ℚ) + (m : ℚ) / 12) * 365.25 + d < 578140 then 0
    else 2 - A + Int.tdiv A 4
  ((1461 * (Y + 4716)).tdiv 4 : ℚ)
    + ((306001 * (M + 1)).tdiv 10000 : ℚ) + d + (B : ℚ) - 1524.5

/-- From `dtmath.JD`: guards (`OverflowError` for years before -4712, the
`assert` rejecting the days removed by the 1582 reform) then `JDraw`. -/
def JD (y m : ℤ) (d : ℚ) : Except PyErr ℚ :=
  if y < -4712 then .error .overflow
  else if y = 1582 ∧ m = 10 ∧ ¬(d ≤ 4 ∨ 15 ≤ d) then .error .assertFail
  else .ok (JDraw y m d)

/-- Arithmetic part of `dtmath.MJD` (integer valued, offset -2401525),
with the same exact embedding of the float table lookups as `JDraw`. -/
def MJDraw (y m d : ℤ) : ℤ :=
  let Y := if m ≤ 2 then y - 1 else y
  let M := if m ≤ 2 then m + 12 else m
  let A := Int.tdiv Y 100
  let B : ℤ :=
    if ((y : ℚ) + (m : ℚ) / 12) * 365.25 + (d : ℚ) < 578140 then 0
    else 2 - A + Int.tdiv A 4
  (1461 * (Y + 4716)).tdiv 4
    + (306001 * (M + 1)).tdiv 10000 + d + B - 2401525

/-- From `dtmath.MJD`: guards then `MJDraw`. -/
def MJD (y m d : ℤ) : Except PyErr ℤ :=
  if y < -4712 then .error .overflow
  else if y = 1582 ∧ m = 10 ∧ ¬(d ≤ 4 ∨ 15 ≤ d) then .error .assertFail
  else .ok (MJDraw y m d)

/-- From `dtmath.RJD`: the Meeus inverse.  Returns year, month, day and
the day fraction; raises `OverflowError` for `jd < -0.5` and asserts
`1 <= MM <= 12`.  All arithmetic after `Z` is on integers and is
embedded exactly:
`int((Z - 1867216.25)/36524.25) = (4*Z - 7468865).tdiv 146097`,
`int((B - 122.1)/365.25) = (20*B - 2442).tdiv 7305`,
`int(365.25*C) = (1461*C).tdiv 4`,
`int((B - D)/30.6001) = (10000*(B - D)).tdiv 306001` and
`int(30.6001*E) = (306001*E).tdiv 10000`.  In each case the exact
quotient sits at distance at least 1/146097 (for the divisions) or
4e-4 (for the products) from the truncation boundary, and IEEE
division is correctly rounded, so the double computation of the source
truncates to the same integer. -/
def RJD (jd : ℚ) : Except PyErr (ℤ × ℤ × ℤ × ℚ) :=
  if jd < -0.5 then .error .overflow else
  let jd5 := jd + 0.5
  let Z := pytrunc jd5
  let F := jd5 - (Z : ℚ)
  let A :=
    if Z < 2299161 then Z
    else
      let alpha := (4 * Z - 7468865).tdiv 146097
      Z + 1 + alpha - Int.tdiv alpha 4
  let B := A + 1524
  let C := (20 * B - 2442).tdiv 7305
  let D := (1461 * C).tdiv 4
  let E := (10000 * (B - D)).tdiv 306001
  let DD := B - D - (306001 * E).tdiv 10000
  let MM := if E < 14 then E - 1 else E - 13
  if ¬(1 ≤ MM ∧ MM ≤ 12) then .error .assertFail
  else
    let Y := if MM > 2 then C - 4716 else C - 4715
    .ok (Y, MM, DD, F)

/-- Modelling helper: the integer core of `RJD` after `A`, written with
Euclidean division (equal to the source's truncations for nonnegative
day numbers, see `meeusInvT_eq`). -/
def meeusInvA (A : ℤ) : ℤ × ℤ × ℤ :=
  let B := A + 1524
  let C := (20 * B - 2442) / 7305
  let D := (1461 * C) / 4
  let E := (10000 * (B - D)) / 306001
  let dd := B - D - (306001 * E) / 10000
  let mm := if E < 14 then E - 1 else E - 13
  let yy := if mm > 2 then C - 4716 else C - 4715
  (yy, mm, dd)

/-- Modelling helper: the integer core of `RJD` in Euclidean form. -/
def meeusInv (z : ℤ) : ℤ × ℤ × ℤ :=
  if z < 2299161 then meeusInvA z
  else meeusInvA (z + 1 + (4 * z - 7468865) / 146097 - ((4 * z - 7468865) / 146097) / 4)

/-- Modelling helper: the integer core of `RJD`, exact mirror with
truncating division. -/
def meeusInvT (z : ℤ) : ℤ × ℤ × ℤ :=
  let A :=
    if z < 2299161 then z
    else
      let alpha := (4 * z - 7468865).tdiv 146097
      z + 1 + alpha - Int.tdiv alpha 4
  let B := A + 1524
  let C := (20 * B - 2442).tdiv 7305
  let D := (1461 * C).tdiv 4
  let E := (10000 * (B - D)).tdiv 306001
  let DD := B - D - (306001 * E).tdiv 10000
  let MM := if E < 14 then E - 1 else E - 13
  let Y := if MM > 2 then C - 4716 else C - 4715
  (Y, MM, DD)

theorem meeusInvT_eq (z : ℤ) (hz : 0 ≤ z) : meeusInvT z = meeusInv z := by
  by_cases hzb : z < 2299161
  · simp only [meeusInvT, meeusInv, if_pos hzb]
    rw [tdiv_eq_ediv_nonneg (20 * (z + 1524) - 2442) 7305 (by omega) (by norm_num)]
    rw [tdiv_eq_ediv_nonneg (1461 * ((20 * (z + 1524) - 2442) / 7305)) 4 (by omega) (by norm_num)]
    rw [tdiv_eq_ediv_nonneg (10000 * (z + 1524 - 1461 * ((20 * (z + 1524) - 2442) / 7305) / 4))
        306001 (by omega) (by norm_num)]
    rw [tdiv_eq_ediv_nonneg
        (306001 * (10000 * (z + 1524 - 1461 * ((20 * (z + 1524) - 2442) / 7305) / 4) / 306001))
        10000 (by omega) (by norm_num)]
    rfl
  · simp only [meeusInvT, meeusInv, if_neg hzb]
    rw [tdiv_eq_ediv_nonneg (4 * z - 7468865) 146097 (by omega) (by norm_num)]
    rw [tdiv_eq_ediv_nonneg ((4 * z - 7468865) / 146097) 4 (by omega) (by norm_num)]
    set A := z + 1 + (4 * z - 7468865) / 146097 - (4 * z - 7468865) / 146097 / 4 with hAdef
    have hApos : 0 ≤ A := by rw [hAdef]; omega
    rw [tdiv_eq_ediv_nonneg (20 * (A + 1524) - 2442) 7305 (by omega) (by norm_num)]
    rw [tdiv_eq_ediv_nonneg (1461 * ((20 * (A + 1524) - 2442) / 7305)) 4 (by omega) (by norm_num)]
    rw [tdiv_eq_ediv_nonneg (10000 * (A + 1524 - 1461 * ((20 * (A + 1524) - 2442) / 7305) / 4))
        306001 (by omega) (by norm_num)]
    rw [tdiv_eq_ediv_nonneg
        (306001 * (10000 * (A + 1524 - 1461 * ((20 * (A + 1524) - 2442) / 7305) / 4) / 306001))
        10000 (by omega) (by norm_num)]
    rfl

/-- `RJD` at the half-integral points produced by `JD` on whole days:
overflow guard passes, the day fraction is 0, and the integer part is
`meeusInvT`. -/
theorem RJD_halfint (z : ℤ) (hz : 0 ≤ z) :
    RJD ((z : ℚ) - 0.5)
      = if ¬(1 ≤ (meeusInvT z).2.1 ∧ (meeusInvT z).2.1 ≤ 12)
        then .error .assertFail
        else .ok ((meeusInvT z).1, (meeusInvT z).2.1, (meeusInvT z).2.2, 0) := by
  have hnn : ¬((z : ℚ) - 0.5 < -0.5) := by
    simp only [not_lt]
    have : (0 : ℚ) ≤ (z : ℚ) := by exact_mod_cast hz
    linarith
  have hjd5 : (z : ℚ) - 0.5 + 0.5 = (z : ℚ) := by ring
  simp only [RJD, meeusInvT]
  rw [if_neg hnn]
  simp only [hjd5, pytrunc_intCast, sub_self]

/-- The constant `MJD0 = 2400000.5` from `cnav/constants.py`. -/
def MJD0 : ℚ := 2400000.5

/-- From `dtmath.RMJD`: `RJD(mjd + MJD0)[:3]`. -/
def RMJD (mjd : ℚ) : Except PyErr (ℤ × ℤ × ℤ) :=
  (RJD (mjd + MJD0)).map fun t => (t.1, t.2.1, t.2.2.1)

/-- From `dtmath.is_gregorian_leapyear`: proleptic Gregorian rule. -/
def is_gregorian_leapyear (y : ℤ) : Bool :=
  if y % 4 = 0 then
    if y % 400 = 0 then true
    else if y % 100 = 0 then false else true
  else false

/-- From `dtmath.is_julian_leapyear`: proleptic Julian rule. -/
def is_julian_leapyear (y : ℤ) : Bool := y % 4 = 0

/-- From `dtmath.GD`: proleptic Gregorian day ordinal (day 1-1-1 is 1). -/
def GD (y m d : ℤ) : ℤ :=
  let yy := y - 1
  let o1 := 365 * yy + yy / 4 - yy / 100 + yy / 400
  let o2 := o1 + (367 * m - 362) / 12
  let o3 := if m > 2 then (if is_gregorian_leapyear y then o2 - 1 else o2 - 2) else o2
  o3 + d

/-- `dtmath.GDALIGN = JD(2000, 1, 1) - GD(2000, 1, 1)`. -/
def GDALIGN : ℚ := JDraw 2000 1 1 - (GD 2000 1 1 : ℚ)

/-- From `dtmath.JDg`: Gregorian ordinal aligned to the JD scale. -/
def JDg (y m d : ℤ) : ℚ := (GD y m d : ℚ) + GDALIGN

/-- From `dtmath.RJDg`: inverse of `JDg` (400-year cycle decomposition).
Float `//` and `%` are floor division and remainder. -/
def RJDg (jd : ℚ) : ℤ × ℤ × ℤ :=
  let dq : ℚ := jd - GDALIGN - 1
  let n400 : ℤ := pyfloorDiv dq 146097
  let d1 : ℚ := dq - 146097 * (n400 : ℚ)
  let n100 : ℤ := pyfloorDiv d1 36524
  let d2 : ℚ := d1 - 36524 * (n100 : ℚ)
  let n4 : ℤ := pyfloorDiv d2 1461
  let d3 : ℚ := d2 - 1461 * (n4 : ℚ)
  let n1 : ℤ := pyfloorDiv d3 365
  let y0 : ℤ := 400 * n400 + 100 * n100 + 4 * n4 + n1
  let y : ℤ := if ¬(n1 = 4 ∨ n100 = 4) then y0 + 1 else y0
  if n1 ≠ 4 ∧ n100 ≠ 4 then
    let p : ℚ := d3 - 365 * (n1 : ℚ)
    let c : ℤ := if is_gregorian_leapyear y then (if p < 60 then 0 else 1)
                 else (if p < 59 then 0 else 2)
    let m : ℤ := pyfloorDiv (12 * (p + (c : ℚ)) + 373) 367
    let dd : ℤ := pytrunc (dq - (GD y m 0 : ℚ) + 1)
    (y, m, dd)
  else (y, 12, 31)

/-- From `dtmath.JJD`: proleptic Julian day ordinal (day 1-1-1 is 1). -/
def JJD (y m d : ℤ) : ℤ :=
  let yy := y - 1
  let o1 := 365 * yy + yy / 4
  let o2 := o1 + (367 * m - 362) / 12
  let o3 := if m > 2 then (if is_julian_leapyear y then o2 - 1 else o2 - 2) else o2
  o3 + d

/-- `dtmath.JDALIGN = JD(-4712, 1, 1) - JJD(-4712, 1, 1)`. -/
def JDALIGN : ℚ := JDraw (-4712) 1 1 - (JJD (-4712) 1 1 : ℚ)

/-- From `dtmath.JDj`: Julian ordinal aligned to the JD scale. -/
def JDj (y m d : ℤ) : ℚ := (JJD y m d : ℚ) + JDALIGN

/-- From `dtmath.RJDj`: inverse of `JDj` (4-year cycle). -/
def RJDj (jd : ℚ) : ℤ × ℤ × ℤ :=
  let dq : ℚ := jd - JDALIGN - 1
  let year : ℤ := pyfloorDiv (4 * dq + 1464) 1461
  let p : ℚ := dq - (JJD year 1 0 : ℚ)
  let c : ℤ := if is_julian_leapyear year then (if p < 60 then 0 else 1)
               else (if p < 59 then 0 else 2)
  let m : ℤ := pyfloorDiv (12 * (p + (c : ℚ)) + 373) 367
  let dd : ℤ := pytrunc (dq - (JJD year m 0 : ℚ) + 1)
  (year, m, dd)

/-- From `dtmath.weekday_nr`: `int(jd + 1.5) % 7`, 0 is Sunday. -/
def weekday_nr (jd : ℚ) : ℤ := pytrunc (jd + 1.5) % 7

/-- From `cnav/constants.py` `mdays` (also in both `Date` classes):
lengths of the months of a common year. -/
def mdays (m : ℤ) : ℤ :=
  if m = 2 then 28
  else if m = 4 ∨ m = 6 ∨ m = 9 ∨ m = 11 then 30 else 31

/-- The float branch test of `JD`/`MJD`/`is_gregorian`, as an exact
integer comparison (multiply through by 48; the quantity is a multiple
of 1/48 and never equals the threshold, see `reform_test_ne`). -/
theorem reform_lt_iff (y m : ℤ) (d : ℚ) :
    (((y : ℚ) + (m : ℚ) / 12) * 365.25 + d < 578140) ↔
      ((((12 * y + m) * 1461 : ℤ) : ℚ) + 48 * d < 27750720) := by
  have E : (((12 * y + m) * 1461 : ℤ) : ℚ) + 48 * d
      = (((y : ℚ) + (m : ℚ) / 12) * 365.25 + d) * 48 := by push_cast; ring
  rw [E, show ((27750720 : ℚ)) = 578140 * 48 by norm_num]
  exact (mul_lt_mul_right (by norm_num)).symm

theorem reform_gt_iff (y m : ℤ) (d : ℚ) :
    (((y : ℚ) + (m : ℚ) / 12) * 365.25 + d > 578140) ↔
      ((((12 * y + m) * 1461 : ℤ) : ℚ) + 48 * d > 27750720) := by
  have E : (((12 * y + m) * 1461 : ℤ) : ℚ) + 48 * d
      = (((y : ℚ) + (m : ℚ) / 12) * 365.25 + d) * 48 := by push_cast; ring
  rw [E, show ((27750720 : ℚ)) = 578140 * 48 by norm_num]
  exact (mul_lt_mul_right (by norm_num)).symm

theorem reform_lt_iffZ (y m d : ℤ) :
    (((y : ℚ) + (m : ℚ) / 12) * 365.25 + (d : ℚ) < 578140) ↔
      ((12 * y + m) * 1461 + 48 * d < 27750720) := by
  rw [reform_lt_iff y m (d : ℚ)]
  constructor <;> intro h <;> exact_mod_cast h

theorem is_gregorian_iff (y m d : ℤ) :
    is_gregorian y m d = true ↔ 27750720 < (12 * y + m) * 1461 + 48 * d := by
  unfold is_gregorian
  rw [decide_eq_true_eq, reform_gt_iff y m (d : ℚ)]
  constructor <;> intro h <;> exact_mod_cast h

/-- On the supported range the branch quantity never equals the
threshold, so the `<` and `>` float tests are complementary: the
comparison `48*((y + m/12)*365.25 + d)` against `27750720` is between
integers at distance at least 1 (it would need `487 ∣ 578140 - d`,
impossible for a day `1 ≤ d ≤ 31`). -/
theorem reform_test_ne (y m d : ℤ) (hd : 1 ≤ d) (hd31 : d ≤ 31) :
    (12 * y + m) * 1461 + 48 * d ≠ 27750720 := by
  intro h
  omega

/-- Modelling helper: the common "Meeus shifted" integer day form
`INT(365.25*Yx) + INT(30.6001*E0) + d - 1524` with the float products
embedded exactly. -/
def zform (Yx E0 d : ℤ) : ℤ := 1461 * Yx / 4 + (306001 * E0) / 10000 + d - 1524

set_option maxHeartbeats 1000000 in
theorem GD_zform_lo (y m d : ℤ) (hm : 1 ≤ m) (hle : m ≤ 2) :
    GD y m d + 1721425
      = zform (y - 1 + 4716) (m + 13) d + (2 - (y - 1) / 100 + ((y - 1) / 100) / 4) := by
  simp only [GD, zform, is_gregorian_leapyear]
  obtain ⟨a, b, c, e, hde, hb, hc, he⟩ :
      ∃ a b c e, y - 1 = 400 * a + 100 * b + 4 * c + e ∧ (0 ≤ b ∧ b ≤ 3)
        ∧ (0 ≤ c ∧ c ≤ 24) ∧ (0 ≤ e ∧ e ≤ 3) :=
    ⟨(y - 1) / 400, (y - 1) % 400 / 100, (y - 1) % 400 % 100 / 4, (y - 1) % 400 % 100 % 4,
      by omega, ⟨by omega, by omega⟩, ⟨by omega, by omega⟩, ⟨by omega, by omega⟩⟩
  have h1 : (y - 1) / 4 = 100 * a + 25 * b + c := by omega
  have h2 : (y - 1) / 100 = 4 * a + b := by omega
  have h3 : (y - 1) / 400 = a := by omega
  have h4 : (4 * a + b) / 4 = a := by omega
  have h5 : 1461 * (y - 1 + 4716) / 4 = 146100 * a + 36525 * b + 1461 * c + 365 * e + 1722519 := by
    omega
  interval_cases m <;> omega

set_option maxHeartbeats 1600000 in
theorem GD_zform_hi (y m d : ℤ) (hm : 3 ≤ m) (hm2 : m ≤ 12) :
    GD y m d + 1721425
      = zform (y + 4716) (m + 1) d + (2 - y / 100 + (y / 100) / 4) := by
  simp only [GD, zform]
  obtain ⟨a, b, c, e, hde, hb, hc, he⟩ :
      ∃ a b c e, y - 1 = 400 * a + 100 * b + 4 * c + e ∧ (0 ≤ b ∧ b ≤ 3)
        ∧ (0 ≤ c ∧ c ≤ 24) ∧ (0 ≤ e ∧ e ≤ 3) :=
    ⟨(y - 1) / 400, (y - 1) % 400 / 100, (y - 1) % 400 % 100 / 4, (y - 1) % 400 % 100 % 4,
      by omega, ⟨by omega, by omega⟩, ⟨by omega, by omega⟩, ⟨by omega, by omega⟩⟩
  have h1 : (y - 1) / 4 = 100 * a + 25 * b + c := by omega
  have h2 : (y - 1) / 100 = 4 * a + b := by omega
  have h3 : (y - 1) / 400 = a := by omega
  have hLiff : (is_gregorian_leapyear y = true)
      ↔ (e = 3 ∧ (4 * c + e ≠ 99 ∨ 100 * b + 4 * c + e = 399)) := by
    simp only [is_gregorian_leapyear]
    split_ifs <;> simp <;> omega
  interval_cases m <;>
    (norm_num
     rcases em (e = 3 ∧ (4 * c + e ≠ 99 ∨ 100 * b + 4 * c + e = 399)) with hl | hl
     · rw [if_pos (hLiff.mpr hl)]
       rcases em (4 * c + e = 99) with hce | hce <;>
         rcases em (b = 3) with hb3 | hb3 <;> omega
     · rw [if_neg (fun hcon => hl (hLiff.mp hcon))]
       rcases em (4 * c + e = 99) with hce | hce <;>
         rcases em (b = 3) with hb3 | hb3 <;> omega)

set_option maxHeartbeats 1000000 in
theorem JJD_zform_lo (y m d : ℤ) (hm : 1 ≤ m) (hle : m ≤ 2) :
    JJD y m d + 1721423 = zform (y - 1 + 4716) (m + 13) d := by
  simp only [JJD, zform, is_julian_leapyear, decide_eq_true_eq]
  have hr4 : (1461 * (y - 1 + 4716)) % 4 = (y - 1) % 4 := by rw [Int.mul_emod]; omega
  interval_cases m <;> split_ifs <;> omega

set_option maxHeartbeats 1000000 in
theorem JJD_zform_hi (y m d : ℤ) (hm : 3 ≤ m) (hm2 : m ≤ 12) :
    JJD y m d + 1721423 = zform (y + 4716) (m + 1) d := by
  simp only [JJD, zform, is_julian_leapyear, decide_eq_true_eq]
  have hr4 : (1461 * (y + 4716)) % 4 = y % 4 := by rw [Int.mul_emod]; omega
  interval_cases m <;> split_ifs <;> omega

set_option maxHeartbeats 800000 in
theorem invA_gen (Yx d K E0 : ℤ)
    (hK : K = (306001 * E0) / 10000)
    (hE04 : 4 ≤ E0) (hE015 : E0 ≤ 15)
    (h1 : 0 ≤ 20 * K + 20 * d - 2442 - 5 * (Yx % 4))
    (h2 : 20 * K + 20 * d - 2442 - 5 * (Yx % 4) ≤ 7304)
    (h3 : 306001 * E0 ≤ 10000 * (K + d))
    (h4 : 10000 * (K + d) ≤ 306001 * E0 + 306000) :
    meeusInvA (1461 * Yx / 4 + K + d - 1524)
      = (if E0 < 14 then Yx - 4716 else Yx - 4715,
         if E0 < 14 then E0 - 1 else E0 - 13, d) := by
  simp only [meeusInvA, Prod.mk.injEq]
  have hr : (1461 * Yx) % 4 = Yx % 4 := by rw [Int.mul_emod]; omega
  have hB : 1461 * Yx / 4 + K + d - 1524 + 1524 = 1461 * Yx / 4 + K + d := by omega
  rw [hB]
  have hC : (20 * (1461 * Yx / 4 + K + d) - 2442) / 7305 = Yx := by omega
  rw [hC]
  have hE : 10000 * (1461 * Yx / 4 + K + d - 1461 * Yx / 4) / 306001 = E0 := by omega
  rw [hE]
  by_cases hE14 : E0 < 14
  · rw [if_pos hE14, if_pos (by omega), if_pos hE14]
    exact ⟨rfl, rfl, by omega⟩
  · rw [if_neg hE14, if_neg (by omega), if_neg hE14]
    exact ⟨rfl, rfl, by omega⟩

theorem greg_Atrans (J Ay z : ℤ)
    (hz : z = J + (2 - Ay + Ay / 4))
    (hlo : 146097 * (Ay - 4) ≤ 4 * z - 7468865)
    (hup : 4 * z - 7468865 < 146097 * (Ay - 3)) :
    z + 1 + (4 * z - 7468865) / 146097 - (4 * z - 7468865) / 146097 / 4 = J := by
  have halpha : (4 * z - 7468865) / 146097 = Ay - 4 := by omega
  rw [halpha]
  omega

set_option maxHeartbeats 2000000 in
theorem meeusA_JJD (y m d : ℤ) (hm : 1 ≤ m) (hm2 : m ≤ 12) (hd : 1 ≤ d)
    (hd2 : d ≤ mdays m + (if m = 2 ∧ y % 4 = 0 then 1 else 0)) :
    meeusInvA (JJD y m d + 1721423) = (y, m, d) := by
  simp only [mdays] at hd2
  interval_cases m
  · norm_num at hd2
    rw [JJD_zform_lo y 1 d (by norm_num) (by norm_num)]
    simp only [zform]
    rw [invA_gen (y - 1 + 4716) d (306001 * (1 + 13) / 10000) (1 + 13) rfl
      (by norm_num) (by norm_num) (by omega) (by omega) (by omega) (by omega)]
    norm_num <;> omega
  · norm_num at hd2
    split_ifs at hd2 <;>
      (rw [JJD_zform_lo y 2 d (by norm_num) (by norm_num)]
       simp only [zform]
       rw [invA_gen (y - 1 + 4716) d (306001 * (2 + 13) / 10000) (2 + 13) rfl
         (by norm_num) (by norm_num) (by omega) (by omega) (by omega) (by omega)]
       norm_num <;> omega)
  · norm_num at hd2
    rw [JJD_zform_hi y 3 d (by norm_num) (by norm_num)]
    simp only [zform]
    rw [invA_gen (y + 4716) d (306001 * (3 + 1) / 10000) (3 + 1) rfl
      (by norm_num) (by norm_num) (by omega) (by omega) (by omega) (by omega)]
    norm_num <;> omega
  · norm_num at hd2
    rw [JJD_zform_hi y 4 d (by norm_num) (by norm_num)]
    simp only [zform]
    rw [invA_gen (y + 4716) d (306001 * (4 + 1) / 10000) (4 + 1) rfl
      (by norm_num) (by norm_num) (by omega) (by omega) (by omega) (by omega)]
    norm_num <;> omega
  · norm_num at hd2
    rw [JJD_zform_hi y 5 d (by norm_num) (by norm_num)]
    simp only [zform]
    rw [invA_gen (y + 4716) d (306001 * (5 + 1) / 10000) (5 + 1) rfl
      (by norm_num) (by norm_num) (by omega) (by omega) (by omega) (by omega)]
    norm_num <;> omega
  · norm_num at hd2
    rw [JJD_zform_hi y 6 d (by norm_num) (by norm_num)]
    simp only [zform]
    rw [invA_gen (y + 4716) d (306001 * (6 + 1) / 10000) (6 + 1) rfl
      (by norm_num) (by norm_num) (by omega) (by omega) (by omega) (by omega)]
    norm_num <;> omega
  · norm_num at hd2
    rw [JJD_zform_hi y 7 d (by norm_num) (by norm_num)]
    simp only [zform]
    rw [invA_gen (y + 4716) d (306001 * (7 + 1) / 10000) (7 + 1) rfl
      (by norm_num) (by norm_num) (by omega) (by omega) (by omega) (by omega)]
    norm_num <;> omega
  · norm_num at hd2
    rw [JJD_zform_hi y 8 d (by norm_num) (by norm_num)]
    simp only [zform]
    rw [invA_gen (y + 4716) d (306001 * (8 + 1) / 10000) (8 + 1) rfl
      (by norm_num) (by norm_num) (by omega) (by omega) (by omega) (by omega)]
    norm_num <;> omega
  · norm_num at hd2
    rw [JJD_zform_hi y 9 d (by norm_num) (by norm_num)]
    simp only [zform]
    rw [invA_gen (y + 4716) d (306001 * (9 + 1) / 10000) (9 + 1) rfl
      (by norm_num) (by norm_num) (by omega) (by omega) (by omega) (by omega)]
    norm_num <;> omega
  · norm_num at hd2
    rw [JJD_zform_hi y 10 d (by norm_num) (by norm_num)]
    simp only [zform]
    rw [invA_gen (y + 4716) d (306001 * (10 + 1) / 10000) (10 + 1) rfl
      (by norm_num) (by norm_num) (by omega) (by omega) (by omega) (by omega)]
    norm_num <;> omega
  · norm_num at hd2
    rw [JJD_zform_hi y 11 d (by norm_num) (by norm_num)]
    simp only [zform]
    rw [invA_gen (y + 4716) d (306001 * (11 + 1) / 10000) (11 + 1) rfl
      (by norm_num) (by norm_num) (by omega) (by omega) (by omega) (by omega)]
    norm_num <;> omega
  · norm_num at hd2
    rw [JJD_zform_hi y 12 d (by norm_num) (by norm_num)]
    simp only [zform]
    rw [invA_gen (y + 4716) d (306001 * (12 + 1) / 10000) (12 + 1) rfl
      (by norm_num) (by norm_num) (by omega) (by omega) (by omega) (by omega)]
    norm_num <;> omega

set_option maxHeartbeats 4000000 in
theorem meeusInv_GD (y m d : ℤ) (hm : 1 ≤ m) (hm2 : m ≤ 12) (hd : 1 ≤ d)
    (hd2 : d ≤ mdays m + (if m = 2 ∧ is_gregorian_leapyear y = true then 1 else 0))
    (hz : 2299161 ≤ GD y m d + 1721425) :
    meeusInv (GD y m d + 1721425) = (y, m, d) := by
  simp only [meeusInv]
  rw [if_neg (by omega)]
  have hL : (is_gregorian_leapyear y = true) ↔ (y % 4 = 0 ∧ (y % 100 ≠ 0 ∨ y % 400 = 0)) := by
    simp only [is_gregorian_leapyear]
    split_ifs <;> simp <;> omega
  have hr4lo : (1461 * (y - 1 + 4716)) % 4 = (y - 1) % 4 := by rw [Int.mul_emod]; omega
  have hr4hi : (1461 * (y + 4716)) % 4 = y % 4 := by rw [Int.mul_emod]; omega
  simp only [mdays] at hd2
  interval_cases m
  · norm_num at hd2
    rw [GD_zform_lo y 1 d (by norm_num) (by norm_num)]
    rw [greg_Atrans (zform (y - 1 + 4716) (1 + 13) d) ((y - 1) / 100) _ rfl
      (by simp only [zform]; omega) (by simp only [zform]; omega)]
    simp only [zform]
    rw [invA_gen (y - 1 + 4716) d (306001 * (1 + 13) / 10000) (1 + 13) rfl
      (by norm_num) (by norm_num) (by omega) (by omega) (by omega) (by omega)]
    norm_num <;> omega
  · have hd2' : d ≤ 28 + (if y % 4 = 0 ∧ (y % 100 ≠ 0 ∨ y % 400 = 0) then 1 else 0) := by
      rcases em (is_gregorian_leapyear y = true) with hgl | hgl
      · rw [if_pos (hL.mp hgl)]; simpa [hgl] using hd2
      · rw [if_neg (fun hc => hgl (hL.mpr hc))]; simpa [hgl] using hd2
    have hd2'' : d ≤ 29 ∧ (d = 29 → y % 4 = 0 ∧ (y % 100 ≠ 0 ∨ y % 400 = 0)) := by
      split_ifs at hd2' <;> omega
    clear hd2 hd2'
    rw [GD_zform_lo y 2 d (by norm_num) (by norm_num)]
    rw [greg_Atrans (zform (y - 1 + 4716) (2 + 13) d) ((y - 1) / 100) _ rfl
      (by simp only [zform]; omega) (by simp only [zform]; omega)]
    simp only [zform]
    rw [invA_gen (y - 1 + 4716) d (306001 * (2 + 13) / 10000) (2 + 13) rfl
      (by norm_num) (by norm_num) (by omega) (by omega) (by omega) (by omega)]
    norm_num <;> omega
  · norm_num at hd2
    rw [GD_zform_hi y 3 d (by norm_num) (by norm_num)]
    rw [greg_Atrans (zform (y + 4716) (3 + 1) d) (y / 100) _ rfl
      (by simp only [zform]; omega) (by simp only [zform]; omega)]
    simp only [zform]
    rw [invA_gen (y + 4716) d (306001 * (3 + 1) / 10000) (3 + 1) rfl
      (by norm_num) (by norm_num) (by omega) (by omega) (by omega) (by omega)]
    norm_num <;> omega
  · norm_num at hd2
    rw [GD_zform_hi y 4 d (by norm_num) (by norm_num)]
    rw [greg_Atrans (zform (y + 4716) (4 + 1) d) (y / 100) _ rfl
      (by simp only [zform]; omega) (by simp only [zform]; omega)]
    simp only [zform]
    rw [invA_gen (y + 4716) d (306001 * (4 + 1) / 10000) (4 + 1) rfl
      (by norm_num) (by norm_num) (by omega) (by omega) (by omega) (by omega)]
    norm_num <;> omega
  · norm_num at hd2
    rw [GD_zform_hi y 5 d (by norm_num) (by norm_num)]
    rw [greg_Atrans (zform (y + 4716) (5 + 1) d) (y / 100) _ rfl
      (by simp only [zform]; omega) (by simp only [zform]; omega)]
    simp only [zform]
    rw [invA_gen (y + 4716) d (306001 * (5 + 1) / 10000) (5 + 1) rfl
      (by norm_num) (by norm_num) (by omega) (by omega) (by omega) (by omega)]
    norm_num <;> omega
  · norm_num at hd2
    rw [GD_zform_hi y 6 d (by norm_num) (by norm_num)]
    rw [greg_Atrans (zform (y + 4716) (6 + 1) d) (y / 100) _ rfl
      (by simp only [zform]; omega) (by simp only [zform]; omega)]
    simp only [zform]
    rw [invA_gen (y + 4716) d (306001 * (6 + 1) / 10000) (6 + 1) rfl
      (by norm_num) (by norm_num) (by omega) (by omega) (by omega) (by omega)]
    norm_num <;> omega
  · norm_num at hd2
    rw [GD_zform_hi y 7 d (by norm_num) (by norm_num)]
    rw [greg_Atrans (zform (y + 4716) (7 + 1) d) (y / 100) _ rfl
      (by simp only [zform]; omega) (by simp only [zform]; omega)]
    simp only [zform]
    rw [invA_gen (y + 4716) d (306001 * (7 + 1) / 10000) (7 + 1) rfl
      (by norm_num) (by norm_num) (by omega) (by omega) (by omega) (by omega)]
    norm_num <;> omega
  · norm_num at hd2
    rw [GD_zform_hi y 8 d (by norm_num) (by norm_num)]
    rw [greg_Atrans (zform (y + 4716) (8 + 1) d) (y / 100) _ rfl
      (by simp only [zform]; omega) (by simp only [zform]; omega)]
    simp only [zform]
    rw [invA_gen (y + 4716) d (306001 * (8 + 1) / 10000) (8 + 1) rfl
      (by norm_num) (by norm_num) (by omega) (by omega) (by omega) (by omega)]
    norm_num <;> omega
  · norm_num at hd2
    rw [GD_zform_hi y 9 d (by norm_num) (by norm_num)]
    rw [greg_Atrans (zform (y + 4716) (9 + 1) d) (y / 100) _ rfl
      (by simp only [zform]; omega) (by simp only [zform]; omega)]
    simp only [zform]
    rw [invA_gen (y + 4716) d (306001 * (9 + 1) / 10000) (9 + 1) rfl
      (by norm_num) (by norm_num) (by omega) (by omega) (by omega) (by omega)]
    norm_num <;> omega
  · norm_num at hd2
    rw [GD_zform_hi y 10 d (by norm_num) (by norm_num)]
    rw [greg_Atrans (zform (y + 4716) (10 + 1) d) (y / 100) _ rfl
      (by simp only [zform]; omega) (by simp only [zform]; omega)]
    simp only [zform]
    rw [invA_gen (y + 4716) d (306001 * (10 + 1) / 10000) (10 + 1) rfl
      (by norm_num) (by norm_num) (by omega) (by omega) (by omega) (by omega)]
    norm_num <;> omega
  · norm_num at hd2
    rw [GD_zform_hi y 11 d (by norm_num) (by norm_num)]
    rw [greg_Atrans (zform (y + 4716) (11 + 1) d) (y / 100) _ rfl
      (by simp only [zform]; omega) (by simp only [zform]; omega)]
    simp only [zform]
    rw [invA_gen (y + 4716) d (306001 * (11 + 1) / 10000) (11 + 1) rfl
      (by norm_num) (by norm_num) (by omega) (by omega) (by omega) (by omega)]
    norm_num <;> omega
  · norm_num at hd2
    rw [GD_zform_hi y 12 d (by norm_num) (by norm_num)]
    rw [greg_Atrans (zform (y + 4716) (12 + 1) d) (y / 100) _ rfl
      (by simp only [zform]; omega) (by simp only [zform]; omega)]
    simp only [zform]
    rw [invA_gen (y + 4716) d (306001 * (12 + 1) / 10000) (12 + 1) rfl
      (by norm_num) (by norm_num) (by omega) (by omega) (by omega) (by omega)]
    norm_num <;> omega

theorem is_leapyear_lo (y : ℤ) (hy : y ≤ 1582) : (is_leapyear y = true) ↔ y % 4 = 0 := by
  have hg : is_gregorian y 2 28 = false := by
    rw [Bool.eq_false_iff]
    rw [Ne, is_gregorian_iff]
    omega
  simp only [is_leapyear, hg, Bool.false_eq_true, if_false]
  split_ifs with h <;> simp [h]

theorem is_leapyear_hi (y : ℤ) (hy : 1583 ≤ y) :
    (is_leapyear y = true) ↔ (y % 4 = 0 ∧ (y % 100 ≠ 0 ∨ y % 400 = 0)) := by
  have hg : is_gregorian y 2 28 = true := by
    rw [is_gregorian_iff]
    omega
  simp only [is_leapyear, hg, if_true]
  split_ifs with h1 h2 h3 <;> simp <;> omega

theorem JJD_branch_bound (y m d : ℤ) (hm : 1 ≤ m) (hm2 : m ≤ 12) (hd : 1 ≤ d)
    (hd31 : d ≤ 31) (hlt : (12 * y + m) * 1461 + 48 * d < 27750720)
    (hgap : ¬(y = 1582 ∧ m = 10 ∧ 5 ≤ d ∧ d ≤ 14)) :
    JJD y m d + 1721423 < 2299161 := by
  simp only [JJD, is_julian_leapyear, decide_eq_true_eq]
  interval_cases m <;> split_ifs <;> omega

theorem JJD_lower (y m d : ℤ) (hy : -4712 ≤ y) (hm : 1 ≤ m) (hm2 : m ≤ 12) (hd : 1 ≤ d) :
    0 ≤ JJD y m d + 1721423 := by
  simp only [JJD, is_julian_leapyear, decide_eq_true_eq]
  interval_cases m <;> split_ifs <;> omega

theorem GD_branch_bound (y m d : ℤ) (hm : 1 ≤ m) (hm2 : m ≤ 12) (hd : 1 ≤ d)
    (hd31 : d ≤ 31) (hge : 27750720 ≤ (12 * y + m) * 1461 + 48 * d)
    (hgap : ¬(y = 1582 ∧ m = 10 ∧ 5 ≤ d ∧ d ≤ 14)) :
    2299161 ≤ GD y m d + 1721425 := by
  rcases em (is_gregorian_leapyear y = true) with hb | hb
  · have hba : y % 4 = 0 := by
      revert hb
      simp only [is_gregorian_leapyear]
      split_ifs <;> simp <;> omega
    simp only [GD, hb, if_true]
    interval_cases m <;> split_ifs <;> omega
  · simp only [GD, hb, if_false]
    interval_cases m <;> split_ifs <;> omega

theorem is_gregorian_leapyear_iff (y : ℤ) :
    (is_gregorian_leapyear y = true) ↔ (y % 4 = 0 ∧ (y % 100 ≠ 0 ∨ y % 400 = 0)) := by
  simp only [is_gregorian_leapyear]
  split_ifs <;> simp <;> omega

theorem JDraw_halfint (y m d : ℤ) :
    JDraw y m (d : ℚ) = ((MJDraw y m d + 2400001 : ℤ) : ℚ) - 0.5 := by
  simp only [JDraw, MJDraw]
  split_ifs <;> push_cast <;> ring

theorem zday_julian (y m d : ℤ) (hy : -4712 ≤ y) (hm : 1 ≤ m) (hm2 : m ≤ 12)
    (hlt : ((y : ℚ) + (m : ℚ) / 12) * 365.25 + (d : ℚ) < 578140) :
    MJDraw y m d + 2400001 = JJD y m d + 1721423 := by
  rcases le_or_lt m 2 with hlo | hhi
  · rw [JJD_zform_lo y m d hm hlo]
    simp only [MJDraw, if_pos hlo, if_pos hlt]
    rw [tdiv_eq_ediv_nonneg (1461 * (y - 1 + 4716)) 4 (by omega) (by norm_num)]
    rw [tdiv_eq_ediv_nonneg (306001 * (m + 12 + 1)) 10000 (by omega) (by norm_num)]
    simp only [zform]
    omega
  · rw [JJD_zform_hi y m d hhi hm2]
    simp only [MJDraw, if_neg (not_le.mpr hhi), if_pos hlt]
    rw [tdiv_eq_ediv_nonneg (1461 * (y + 4716)) 4 (by omega) (by norm_num)]
    rw [tdiv_eq_ediv_nonneg (306001 * (m + 1)) 10000 (by omega) (by norm_num)]
    simp only [zform]
    omega

theorem zday_greg (y m d : ℤ) (hy : 1582 ≤ y) (hm : 1 ≤ m) (hm2 : m ≤ 12)
    (hge : ¬(((y : ℚ) + (m : ℚ) / 12) * 365.25 + (d : ℚ) < 578140)) :
    MJDraw y m d + 2400001 = GD y m d + 1721425 := by
  rcases le_or_lt m 2 with hlo | hhi
  · rw [GD_zform_lo y m d hm hlo]
    simp only [MJDraw, if_pos hlo, if_neg hge]
    rw [tdiv_eq_ediv_nonneg (y - 1) 100 (by omega) (by norm_num)]
    rw [tdiv_eq_ediv_nonneg ((y - 1) / 100) 4 (by omega) (by norm_num)]
    rw [tdiv_eq_ediv_nonneg (1461 * (y - 1 + 4716)) 4 (by omega) (by norm_num)]
    rw [tdiv_eq_ediv_nonneg (306001 * (m + 12 + 1)) 10000 (by omega) (by norm_num)]
    simp only [zform]
    omega
  · rw [GD_zform_hi y m d hhi hm2]
    simp only [MJDraw, if_neg (not_le.mpr hhi), if_neg hge]
    rw [tdiv_eq_ediv_nonneg y 100 (by omega) (by norm_num)]
    rw [tdiv_eq_ediv_nonneg (y / 100) 4 (by omega) (by norm_num)]
    rw [tdiv_eq_ediv_nonneg (1461 * (y + 4716)) 4 (by omega) (by norm_num)]
    rw [tdiv_eq_ediv_nonneg (306001 * (m + 1)) 10000 (by omega) (by norm_num)]
    simp only [zform]
    omega

/-- C1: for every valid civil date (year in [-4712, 9999], month in
[1, 12], day valid for that month and year under the module's
reform-aware leap rule, and not inside the 1582-10-05..14 reform gap),
the module-level reverse conversion applied to the forward conversion
returns the same date with zero day fraction:
`RJD (JD y m d) = .ok (y, m, d, 0)`. -/
theorem C1_module_roundtrip (y m d : ℤ) (hy : -4712 ≤ y) (hy2 : y ≤ 9999) (hm : 1 ≤ m) (hm2 : m ≤ 12)
    (hd : 1 ≤ d) (hd2 : d ≤ mdays m + (if m = 2 ∧ is_leapyear y = true then 1 else 0))
    (hgap : ¬(y = 1582 ∧ m = 10 ∧ 5 ≤ d ∧ d ≤ 14)) :
    (JD y m (d : ℚ)).bind RJD = .ok (y, m, d, 0) := by
  have hd31 : d ≤ 31 := by
    simp only [mdays] at hd2; split_ifs at hd2 <;> omega
  have hguard : JD y m (d : ℚ) = .ok (JDraw y m (d : ℚ)) := by
    simp only [JD]
    rw [if_neg (by omega), if_neg ?hg]
    case hg =>
      rintro ⟨h1, h2, h3⟩
      apply h3
      have hdi : d ≤ 4 ∨ 15 ≤ d := by omega
      rcases hdi with h | h
      · left; exact_mod_cast h
      · right; exact_mod_cast h
  rw [hguard]
  show RJD (JDraw y m (d : ℚ)) = Except.ok (y, m, d, 0)
  rw [JDraw_halfint y m d]
  set z := MJDraw y m d + 2400001 with hzdef
  rcases em (((y : ℚ) + (m : ℚ) / 12) * 365.25 + (d : ℚ) < 578140) with hlt | hge
  · have hzeq : z = JJD y m d + 1721423 := zday_julian y m d hy hm hm2 hlt
    have hz0 : 0 ≤ z := hzeq ▸ JJD_lower y m d hy hm hm2 hd
    rw [RJD_halfint z hz0, meeusInvT_eq z hz0]
    have hltZ := (reform_lt_iffZ y m d).mp hlt
    have hbr : z < 2299161 := hzeq ▸ JJD_branch_bound y m d hm hm2 hd hd31 hltZ hgap
    have hd2' : d ≤ mdays m + (if m = 2 ∧ y % 4 = 0 then 1 else 0) := by
      rcases em (m = 2) with hm2' | hm2'
      · subst hm2'
        have hy1582 : y ≤ 1582 := by omega
        rw [if_congr (and_congr_right fun _ => is_leapyear_lo y hy1582) rfl rfl] at hd2
        exact hd2
      · simp only [hm2', false_and, if_false] at hd2 ⊢
        exact hd2
    have hmain : meeusInv z = (y, m, d) := by
      rw [hzeq]
      simp only [meeusInv]
      rw [if_pos (by omega)]
      exact meeusA_JJD y m d hm hm2 hd hd2'
    rw [hmain]
    exact if_neg (not_not_intro ⟨hm, hm2⟩)
  · have hgeZ : ¬((12 * y + m) * 1461 + 48 * d < 27750720) :=
      fun hc => hge ((reform_lt_iffZ y m d).mpr hc)
    have hy1582 : 1582 ≤ y := by omega
    have hzeq : z = GD y m d + 1721425 := zday_greg y m d hy1582 hm hm2 hge
    have hbr : 2299161 ≤ z := by
      rw [hzeq]
      exact GD_branch_bound y m d hm hm2 hd hd31 (by omega) hgap
    have hz0 : 0 ≤ z := by omega
    rw [RJD_halfint z hz0, meeusInvT_eq z hz0]
    have hd2' : d ≤ mdays m + (if m = 2 ∧ is_gregorian_leapyear y = true then 1 else 0) := by
      rcases em (m = 2) with hm2' | hm2'
      · subst hm2'
        have hy1583 : 1583 ≤ y := by omega
        rw [if_congr (and_congr_right fun _ =>
          (is_leapyear_hi y hy1583).trans (is_gregorian_leapyear_iff y).symm) rfl rfl] at hd2
        exact hd2
      · simp only [hm2', false_and, if_false] at hd2 ⊢
        exact hd2
    have hmain : meeusInv z = (y, m, d) := by
      rw [hzeq]
      exact meeusInv_GD y m d hm hm2 hd hd2' (by omega)
    rw [hmain]
    exact if_neg (not_not_intro ⟨hm, hm2⟩)

/-- Witness for C1 at the concrete leap date 2024-02-29. -/
theorem C1_module_roundtrip_witness :
    (JD 2024 2 ((29 : ℤ) : ℚ)).bind RJD = .ok (2024, 2, 29, 0) := by
  apply C1_module_roundtrip 2024 2 29 (by norm_num) (by norm_num) (by norm_num)
    (by norm_num) (by norm_num) ?_ (by decide)
  have h : is_leapyear 2024 = true := (is_leapyear_hi 2024 (by norm_num)).mpr (by decide)
  rw [h]
  decide

/-- Modelling helper: integer mirror of `RJDg` (every intermediate float
is an integer-valued rational; float `//`, `%`, `int()` become `/`,
subtraction form of the remainder, and the identity). -/
def RGDg (z : ℤ) : ℤ × ℤ × ℤ :=
  let n400 := z / 146097
  let d1 := z - 146097 * n400
  let n100 := d1 / 36524
  let d2 := d1 - 36524 * n100
  let n4 := d2 / 1461
  let d3 := d2 - 1461 * n4
  let n1 := d3 / 365
  let y0 := 400 * n400 + 100 * n100 + 4 * n4 + n1
  let y := if ¬(n1 = 4 ∨ n100 = 4) then y0 + 1 else y0
  if n1 ≠ 4 ∧ n100 ≠ 4 then
    let p := d3 - 365 * n1
    let c : ℤ := if is_gregorian_leapyear y then (if p < 60 then 0 else 1)
                 else (if p < 59 then 0 else 2)
    let m := (12 * (p + c) + 373) / 367
    (y, m, z - GD y m 0 + 1)
  else (y, 12, 31)

/-- Modelling helper: integer mirror of `RJDj`. -/
def RJDjZ (z : ℤ) : ℤ × ℤ × ℤ :=
  let year := (4 * z + 1464) / 1461
  let p := z - JJD year 1 0
  let c : ℤ := if is_julian_leapyear year then (if p < 60 then 0 else 1)
               else (if p < 59 then 0 else 2)
  let m := (12 * (p + c) + 373) / 367
  (year, m, z - JJD year m 0 + 1)

/-- Modelling helper: the month recovered by the shared tail of `RJDg` /
`RJDj` from the leap flag and the day-of-year offset. -/
def mfroml (leap : Bool) (w : ℤ) : ℤ :=
  (12 * (w + (if leap then (if w < 60 then 0 else 1) else (if w < 59 then 0 else 2))) + 373) / 367

/-- Modelling helper: offset of the first day of month `m` within a
year, per leap flag (the `(367*m - 362)//12` table of `GD` / `JJD`). -/
def moff (L : Bool) (m : ℤ) : ℤ :=
  (367 * m - 362) / 12 - (if m > 2 then (if L then 1 else 2) else 0)

theorem moff_bounds (m : ℤ) (hm : 1 ≤ m) (hm2 : m ≤ 12) :
    0 ≤ moff false m ∧ 0 ≤ moff true m ∧
    moff false m + mdays m ≤ 365 ∧
    moff true m + (mdays m + (if m = 2 then 1 else 0)) ≤ 366 ∧
    (m ≤ 11 → moff true m + (mdays m + (if m = 2 then 1 else 0)) ≤ 365) := by
  interval_cases m <;> decide

theorem mfroml_val (L : Bool) (m d : ℤ) (hm : 1 ≤ m) (hm2 : m ≤ 12) (hd : 1 ≤ d)
    (hd2 : d ≤ mdays m + (if m = 2 ∧ L = true then 1 else 0)) :
    mfroml L (moff L m + d - 1) = m := by
  cases L
  · simp only [Bool.false_eq_true, and_false, if_false, add_zero] at hd2
    simp only [mfroml, moff, mdays, Bool.false_eq_true, if_false] at *
    interval_cases m <;> split_ifs at * <;> omega
  · simp only [and_true, if_true] at hd2
    simp only [mfroml, moff, mdays, if_true] at *
    interval_cases m <;> split_ifs at * <;> omega

set_option maxHeartbeats 1000000 in
theorem RGDg_main (z y a b c e w : ℤ)
    (hz : z = 146097 * a + 36524 * b + 1461 * c + 365 * e + w)
    (hy : y - 1 = 400 * a + 100 * b + 4 * c + e)
    (hb : 0 ≤ b) (hb3 : b ≤ 3) (hc : 0 ≤ c) (hc24 : c ≤ 24)
    (he : 0 ≤ e) (he3 : e ≤ 3) (hw : 0 ≤ w) (hw364 : w ≤ 364) :
    RGDg z = (y, mfroml (is_gregorian_leapyear y) w,
              z - GD y (mfroml (is_gregorian_leapyear y) w) 0 + 1) := by
  simp only [RGDg, mfroml]
  have h1 : z / 146097 = a := by omega
  rw [h1]
  have h2 : (z - 146097 * a) / 36524 = b := by omega
  rw [h2]
  have h3 : (z - 146097 * a - 36524 * b) / 1461 = c := by omega
  rw [h3]
  have h4 : (z - 146097 * a - 36524 * b - 1461 * c) / 365 = e := by omega
  rw [h4]
  rw [if_pos (show ¬(e = 4 ∨ b = 4) by omega)]
  rw [if_pos (show e ≠ 4 ∧ b ≠ 4 by omega)]
  have h5 : 400 * a + 100 * b + 4 * c + e + 1 = y := by omega
  rw [h5]
  have h6 : z - 146097 * a - 36524 * b - 1461 * c - 365 * e = w := by omega
  rw [h6]

set_option maxHeartbeats 1000000 in
theorem RGDg_dec31 (z y a b c : ℤ)
    (hz : z = 146097 * a + 36524 * b + 1461 * c + 365 * 3 + 365)
    (hy : y - 1 = 400 * a + 100 * b + 4 * c + 3)
    (hb : 0 ≤ b) (hb3 : b ≤ 3) (hc : 0 ≤ c) (hc24 : c ≤ 24)
    (hcent : c = 24 → b = 3) :
    RGDg z = (y, 12, 31) := by
  simp only [RGDg]
  rcases em (c = 24) with h24 | h24
  · have hb' := hcent h24
    subst h24 hb'
    have h1 : z / 146097 = a := by omega
    rw [h1]
    have h2 : (z - 146097 * a) / 36524 = 4 := by omega
    rw [h2]
    have h3 : (z - 146097 * a - 36524 * 4) / 1461 = 0 := by omega
    rw [h3]
    have h4 : (z - 146097 * a - 36524 * 4 - 1461 * 0) / 365 = 0 := by omega
    rw [h4]
    rw [if_neg (show ¬¬((0:ℤ) = 4 ∨ (4:ℤ) = 4) from by simp)]
    rw [if_neg (show ¬((0:ℤ) ≠ 4 ∧ (4:ℤ) ≠ 4) from by simp)]
    simp only [Prod.mk.injEq, and_true]
    omega
  · have h1 : z / 146097 = a := by omega
    rw [h1]
    have h2 : (z - 146097 * a) / 36524 = b := by omega
    rw [h2]
    have h3 : (z - 146097 * a - 36524 * b) / 1461 = c := by omega
    rw [h3]
    have h4 : (z - 146097 * a - 36524 * b - 1461 * c) / 365 = 4 := by omega
    rw [h4]
    rw [if_neg (show ¬¬((4:ℤ) = 4 ∨ b = 4) from by omega)]
    rw [if_neg (show ¬((4:ℤ) ≠ 4 ∧ b ≠ 4) from by omega)]
    simp only [Prod.mk.injEq, and_true]
    omega

theorem RJDjZ_main (z y w : ℤ)
    (hz : z = 365 * (y - 1) + (y - 1) / 4 + w)
    (hw : 0 ≤ w) (hw365 : w ≤ 365) (hw5 : w = 365 → y % 4 = 0) :
    RJDjZ z = (y, mfroml (is_julian_leapyear y) w,
               z - JJD y (mfroml (is_julian_leapyear y) w) 0 + 1) := by
  simp only [RJDjZ, mfroml]
  have h1 : (4 * z + 1464) / 1461 = y := by omega
  rw [h1]
  have h2 : z - JJD y 1 0 = w := by
    simp only [JJD]
    rw [if_neg (show ¬((1:ℤ) > 2) by norm_num)]
    omega
  rw [h2]

theorem RJDjZ_JJD (y m d : ℤ) (hm : 1 ≤ m) (hm2 : m ≤ 12) (hd : 1 ≤ d)
    (hd2 : d ≤ mdays m + (if m = 2 ∧ y % 4 = 0 then 1 else 0)) :
    RJDjZ (JJD y m d - 1) = (y, m, d) := by
  have hLe : (is_julian_leapyear y = true) = (y % 4 = 0) := by
    simp [is_julian_leapyear]
  have hd2' : d ≤ mdays m + (if m = 2 ∧ is_julian_leapyear y = true then 1 else 0) := by
    rw [if_congr (and_congr_right fun _ => by rw [hLe]) rfl rfl]
    exact hd2
  obtain ⟨hB1, hB2, hB3, hB4, hB5⟩ := moff_bounds m hm hm2
  have hwb : 0 ≤ moff (is_julian_leapyear y) m + d - 1
      ∧ moff (is_julian_leapyear y) m + d - 1 ≤ 365
      ∧ (moff (is_julian_leapyear y) m + d - 1 = 365 → y % 4 = 0) := by
    rcases Bool.eq_false_or_eq_true (is_julian_leapyear y) with hb | hb
    · have hy4 : y % 4 = 0 := by rw [← hLe]; exact hb
      rw [hb]
      rcases em (m = 2) with h2 | h2
      · subst h2
        have hdm : d ≤ 29 := by
          rw [if_pos ⟨rfl, hb⟩] at hd2'
          norm_num [mdays] at hd2'
          omega
        have hv : moff true 2 = 31 := by decide
        exact ⟨by omega, by omega, fun _ => hy4⟩
      · have hdm : d ≤ mdays m := by
          rw [if_neg (fun hc : m = 2 ∧ is_julian_leapyear y = true => h2 hc.1)] at hd2'
          omega
        rw [if_neg h2] at hB4
        exact ⟨by omega, by omega, fun _ => hy4⟩
    · have hdm : d ≤ mdays m := by
        rw [if_neg (fun hc : m = 2 ∧ is_julian_leapyear y = true => by
          rw [hb] at hc; exact absurd hc.2 (by simp))] at hd2'
        omega
      rw [hb]
      exact ⟨by omega, by omega, by omega⟩
  have hzw : JJD y m d - 1
      = 365 * (y - 1) + (y - 1) / 4 + (moff (is_julian_leapyear y) m + d - 1) := by
    simp only [JJD, moff]
    split_ifs <;> ring
  rw [hzw]
  rw [RJDjZ_main _ y (moff (is_julian_leapyear y) m + d - 1) rfl hwb.1 hwb.2.1 hwb.2.2]
  rw [mfroml_val (is_julian_leapyear y) m d hm hm2 hd hd2']
  have hoff : JJD y m 0 = 365 * (y - 1) + (y - 1) / 4 + moff (is_julian_leapyear y) m := by
    simp only [JJD, moff]
    split_ifs <;> ring
  rw [hoff]
  simp only [Prod.mk.injEq, true_and]
  ring

set_option maxHeartbeats 1000000 in
theorem RGDg_GD (y m d : ℤ) (hm : 1 ≤ m) (hm2 : m ≤ 12) (hd : 1 ≤ d)
    (hd2 : d ≤ mdays m + (if m = 2 ∧ is_gregorian_leapyear y = true then 1 else 0)) :
    RGDg (GD y m d - 1) = (y, m, d) := by
  obtain ⟨a, b, c, e, hde, hb0, hb3, hc0, hc24, he0, he3⟩ :
      ∃ a b c e, y - 1 = 400 * a + 100 * b + 4 * c + e ∧ 0 ≤ b ∧ b ≤ 3
        ∧ 0 ≤ c ∧ c ≤ 24 ∧ 0 ≤ e ∧ e ≤ 3 :=
    ⟨(y - 1) / 400, (y - 1) % 400 / 100, (y - 1) % 400 % 100 / 4, (y - 1) % 400 % 100 % 4,
      by omega, by omega, by omega, by omega, by omega, by omega, by omega⟩
  have hL : (is_gregorian_leapyear y = true)
      ↔ (e = 3 ∧ (4 * c + e ≠ 99 ∨ 100 * b + 4 * c + e = 399)) := by
    simp only [is_gregorian_leapyear]
    split_ifs <;> simp <;> omega
  obtain ⟨hB1, hB2, hB3, hB4, hB5⟩ := moff_bounds m hm hm2
  have hzw : GD y m d - 1
      = 146097 * a + 36524 * b + 1461 * c + 365 * e
        + (moff (is_gregorian_leapyear y) m + d - 1) := by
    simp only [GD, moff]
    split_ifs with h1 h2
    · have he' := (hL.mp h2).1
      omega
    · have hne : ¬(e = 3 ∧ (4 * c + e ≠ 99 ∨ 100 * b + 4 * c + e = 399)) :=
        fun hc => h2 (hL.mpr hc)
      omega
    · omega
  rw [hzw]
  rcases em (moff (is_gregorian_leapyear y) m + d - 1 ≤ 364) with hmain | hbnd
  · have hw0 : 0 ≤ moff (is_gregorian_leapyear y) m + d - 1 := by
      rcases Bool.eq_false_or_eq_true (is_gregorian_leapyear y) with hbL | hbL <;>
        rw [hbL] <;> omega
    rw [RGDg_main _ y a b c e _ rfl hde hb0 hb3 hc0 hc24 he0 he3 hw0 hmain]
    rw [mfroml_val (is_gregorian_leapyear y) m d hm hm2 hd hd2]
    have hoff : GD y m 0
        = 146097 * a + 36524 * b + 1461 * c + 365 * e
          + moff (is_gregorian_leapyear y) m := by
      simp only [GD, moff]
      split_ifs with h1 h2
      · have he' := (hL.mp h2).1
        omega
      · have hne : ¬(e = 3 ∧ (4 * c + e ≠ 99 ∨ 100 * b + 4 * c + e = 399)) :=
          fun hc => h2 (hL.mpr hc)
        omega
      · omega
    rw [hoff]
    simp only [Prod.mk.injEq, true_and]
    ring
  · -- boundary: only Dec 31 of a leap year reaches day-of-year offset 365
    have hbL : is_gregorian_leapyear y = true := by
      rcases Bool.eq_false_or_eq_true (is_gregorian_leapyear y) with hbL | hbL
      · exact hbL
      · exfalso
        rw [hbL] at hbnd
        have hdm : d ≤ mdays m := by
          rw [if_neg (fun hc : m = 2 ∧ is_gregorian_leapyear y = true => by
            rw [hbL] at hc; exact absurd hc.2 (by simp))] at hd2
          omega
        omega
    rw [hbL] at hbnd
    have hm12 : m = 12 ∧ d = 31 := by
      rcases em (m = 2) with h2 | h2
      · subst h2
        rw [if_pos ⟨rfl, hbL⟩] at hd2
        norm_num [mdays] at hd2
        have hv : moff true 2 = 31 := by decide
        omega
      · have hdm : d ≤ mdays m := by
          rw [if_neg (fun hc : m = 2 ∧ is_gregorian_leapyear y = true => h2 hc.1)] at hd2
          omega
        rcases em (m ≤ 11) with h11 | h11
        · exfalso
          have := hB5 h11
          rw [if_neg h2] at this
          omega
        · have hv : moff true 12 = 335 := by decide
          have hmv : m = 12 := by omega
          subst hmv
          norm_num [mdays] at hdm
          omega
    obtain ⟨hm12', hd31⟩ := hm12
    obtain ⟨he3', hcd⟩ := hL.mp hbL
    have hcent : c = 24 → b = 3 := by
      intro hc24'
      rcases hcd with h99 | h399 <;> omega
    have hval : 146097 * a + 36524 * b + 1461 * c + 365 * e
        + (moff (is_gregorian_leapyear y) m + d - 1)
        = 146097 * a + 36524 * b + 1461 * c + 365 * 3 + 365 := by
      rw [hbL, hm12', hd31, he3']
      have hv : moff true 12 = 335 := by decide
      omega
    rw [hval, RGDg_dec31 _ y a b c (by rfl) (by omega) hb0 hb3 hc0 hc24 hcent]
    rw [hm12', hd31]

theorem RJDg_cast (w : ℤ) (jd : ℚ) (hjd : jd - GDALIGN - 1 = (w : ℚ)) :
    RJDg jd = RGDg w := by
  have eD1 : ∀ n : ℤ, pyfloorDiv (n : ℚ) (146097 : ℚ) = n / 146097 := fun n => by
    rw [show (146097 : ℚ) = ((146097 : ℤ) : ℚ) by norm_num]
    exact pyfloorDiv_intCast n 146097 (by norm_num)
  have eD2 : ∀ n : ℤ, pyfloorDiv (n : ℚ) (36524 : ℚ) = n / 36524 := fun n => by
    rw [show (36524 : ℚ) = ((36524 : ℤ) : ℚ) by norm_num]
    exact pyfloorDiv_intCast n 36524 (by norm_num)
  have eD3 : ∀ n : ℤ, pyfloorDiv (n : ℚ) (1461 : ℚ) = n / 1461 := fun n => by
    rw [show (1461 : ℚ) = ((1461 : ℤ) : ℚ) by norm_num]
    exact pyfloorDiv_intCast n 1461 (by norm_num)
  have eD4 : ∀ n : ℤ, pyfloorDiv (n : ℚ) (365 : ℚ) = n / 365 := fun n => by
    rw [show (365 : ℚ) = ((365 : ℤ) : ℚ) by norm_num]
    exact pyfloorDiv_intCast n 365 (by norm_num)
  have eD5 : ∀ n : ℤ, pyfloorDiv (n : ℚ) (367 : ℚ) = n / 367 := fun n => by
    rw [show (367 : ℚ) = ((367 : ℤ) : ℚ) by norm_num]
    exact pyfloorDiv_intCast n 367 (by norm_num)
  have eC1 : ∀ A B : ℤ, (A : ℚ) - 146097 * (B : ℚ) = ((A - 146097 * B : ℤ) : ℚ) := by
    intro A B; push_cast; ring
  have eC2 : ∀ A B : ℤ, ((A : ℤ) : ℚ) - 36524 * (B : ℚ) = ((A - 36524 * B : ℤ) : ℚ) := by
    intro A B; push_cast; ring
  have eC3 : ∀ A B : ℤ, ((A : ℤ) : ℚ) - 1461 * (B : ℚ) = ((A - 1461 * B : ℤ) : ℚ) := by
    intro A B; push_cast; ring
  have eC4 : ∀ A B : ℤ, ((A : ℤ) : ℚ) - 365 * (B : ℚ) = ((A - 365 * B : ℤ) : ℚ) := by
    intro A B; push_cast; ring
  simp only [RJDg, RGDg]
  rw [hjd]
  rw [eD1 w]
  rw [eC1 w (w / 146097)]
  rw [eD2]
  rw [eC2]
  rw [eD3]
  rw [eC3]
  rw [eD4]
  rw [eC4]
  simp only [show ∀ P : ℤ, (((P : ℤ) : ℚ) < 60) = (P < 60) from
    fun P => propext (by exact_mod_cast Iff.rfl),
    show ∀ P : ℤ, (((P : ℤ) : ℚ) < 59) = (P < 59) from
    fun P => propext (by exact_mod_cast Iff.rfl)]
  rw [show ∀ P C : ℤ, (12 * (((P : ℤ) : ℚ) + ((C : ℤ) : ℚ)) + 373) = ((12 * (P + C) + 373 : ℤ) : ℚ)
    from fun P C => by push_cast; ring]
  rw [eD5]
  rw [show ∀ g : ℤ, (w : ℚ) - ((g : ℤ) : ℚ) + 1 = ((w - g + 1 : ℤ) : ℚ) from fun g => by
    push_cast; ring]
  rw [pytrunc_intCast]

theorem RJDj_cast (w : ℤ) (jd : ℚ) (hjd : jd - JDALIGN - 1 = (w : ℚ)) :
    RJDj jd = RJDjZ w := by
  have eD3 : ∀ n : ℤ, pyfloorDiv (n : ℚ) (1461 : ℚ) = n / 1461 := fun n => by
    rw [show (1461 : ℚ) = ((1461 : ℤ) : ℚ) by norm_num]
    exact pyfloorDiv_intCast n 1461 (by norm_num)
  have eD5 : ∀ n : ℤ, pyfloorDiv (n : ℚ) (367 : ℚ) = n / 367 := fun n => by
    rw [show (367 : ℚ) = ((367 : ℤ) : ℚ) by norm_num]
    exact pyfloorDiv_intCast n 367 (by norm_num)
  simp only [RJDj, RJDjZ]
  rw [hjd]
  rw [show 4 * (w : ℚ) + 1464 = ((4 * w + 1464 : ℤ) : ℚ) by push_cast; ring]
  rw [eD3]
  rw [show ∀ g : ℤ, (w : ℚ) - ((g : ℤ) : ℚ) = ((w - g : ℤ) : ℚ) from fun g => by
    push_cast; ring]
  simp only [show ∀ P : ℤ, (((P : ℤ) : ℚ) < 60) = (P < 60) from
    fun P => propext (by exact_mod_cast Iff.rfl),
    show ∀ P : ℤ, (((P : ℤ) : ℚ) < 59) = (P < 59) from
    fun P => propext (by exact_mod_cast Iff.rfl)]
  rw [show ∀ P C : ℤ, (12 * (((P : ℤ) : ℚ) + ((C : ℤ) : ℚ)) + 373) = ((12 * (P + C) + 373 : ℤ) : ℚ)
    from fun P C => by push_cast; ring]
  rw [eD5]
  rw [show ∀ g : ℤ, (w : ℚ) - ((g : ℤ) : ℚ) + 1 = ((w - g + 1 : ℤ) : ℚ) from fun g => by
    push_cast; ring]
  rw [pytrunc_intCast]

/-- C4: each proleptic calendar in isolation is inverted exactly by its
reverse conversion on every valid date of its own leap rule, for years
in [-4712, 9999]: `RJDg (JDg y m d) = (y, m, d)` and
`RJDj (JDj y m d) = (y, m, d)`. -/
theorem C4_proleptic_roundtrip (y m d : ℤ) (hy : -4712 ≤ y) (hy2 : y ≤ 9999)
    (hm : 1 ≤ m) (hm2 : m ≤ 12) (hd : 1 ≤ d) :
    (d ≤ mdays m + (if m = 2 ∧ is_gregorian_leapyear y = true then 1 else 0) →
      RJDg (JDg y m d) = (y, m, d))
    ∧ (d ≤ mdays m + (if m = 2 ∧ is_julian_leapyear y = true then 1 else 0) →
      RJDj (JDj y m d) = (y, m, d)) := by
  constructor
  · intro hd2
    rw [RJDg_cast (GD y m d - 1) (JDg y m d) (by simp only [JDg]; push_cast; ring)]
    exact RGDg_GD y m d hm hm2 hd hd2
  · intro hd2
    rw [RJDj_cast (JJD y m d - 1) (JDj y m d) (by simp only [JDj]; push_cast; ring)]
    apply RJDjZ_JJD y m d hm hm2 hd
    have hiff : (m = 2 ∧ is_julian_leapyear y = true) ↔ (m = 2 ∧ y % 4 = 0) :=
      and_congr_right fun _ => by
        simp only [is_julian_leapyear, decide_eq_true_eq]
    rw [if_congr hiff rfl rfl] at hd2
    exact hd2

/-- Witness for C4 at the leap date 1600-02-29 (leap in both calendars). -/
theorem C4_proleptic_roundtrip_witness :
    RJDg (JDg 1600 2 29) = (1600, 2, 29) ∧ RJDj (JDj 1600 2 29) = (1600, 2, 29) := by
  have h := C4_proleptic_roundtrip 1600 2 29 (by norm_num) (by norm_num) (by norm_num)
    (by norm_num) (by norm_num)
  exact ⟨h.1 (by decide), h.2 (by decide)⟩

/-- `GD` is linear in the day argument. -/
theorem GD_day (y m d : ℤ) : GD y m d = GD y m 0 + d := by
  simp only [GD]
  split_ifs <;> ring

/-- The offset of a date from January 1 of its year is the month offset
plus the day. -/
theorem GD_minus_start (y m d : ℤ) :
    GD y m d - GD y 1 1 = moff (is_gregorian_leapyear y) m + d - 1 := by
  simp only [GD, moff]
  split_ifs <;> omega

theorem GD_start_val (y : ℤ) :
    GD y 1 1 = 365 * (y - 1) + (y - 1) / 4 - (y - 1) / 100 + (y - 1) / 400 + 1 := by
  simp only [GD]
  split_ifs <;> omega

theorem GD_start_dec (y a b c e : ℤ) (hy : y = 400 * a + 100 * b + 4 * c + e + 1)
    (hb : 0 ≤ b) (hb3 : b ≤ 3) (hc : 0 ≤ c) (hc24 : c ≤ 24)
    (he : 0 ≤ e) (he3 : e ≤ 3) :
    GD y 1 1 = 146097 * a + 36524 * b + 1461 * c + 365 * e + 1 := by
  rw [GD_start_val]
  omega

/-- Every day-of-year offset in range falls in exactly one month. -/
theorem month_partition (L : Bool) (w : ℤ) (hw : 0 ≤ w)
    (hw2 : w ≤ 364 + (if L = true then 1 else 0)) :
    ∃ m d, 1 ≤ m ∧ m ≤ 12 ∧ 1 ≤ d
      ∧ d ≤ mdays m + (if m = 2 ∧ L = true then 1 else 0)
      ∧ moff L m + d - 1 = w := by
  cases L
  · simp only [Bool.false_eq_true, if_false, and_false, add_zero] at hw2 ⊢
    rcases em (w ≤ 30) with h1 | h1
    · exact ⟨1, w + 1, by norm_num, by norm_num, by omega, by norm_num [mdays] <;> omega, by norm_num [moff] <;> omega⟩
    rcases em (w ≤ 58) with h2 | h2
    · exact ⟨2, w - 31 + 1, by norm_num, by norm_num, by omega, by norm_num [mdays] <;> omega, by norm_num [moff] <;> omega⟩
    rcases em (w ≤ 89) with h3 | h3
    · exact ⟨3, w - 59 + 1, by norm_num, by norm_num, by omega, by norm_num [mdays] <;> omega, by norm_num [moff] <;> omega⟩
    rcases em (w ≤ 119) with h4 | h4
    · exact ⟨4, w - 90 + 1, by norm_num, by norm_num, by omega, by norm_num [mdays] <;> omega, by norm_num [moff] <;> omega⟩
    rcases em (w ≤ 150) with h5 | h5
    · exact ⟨5, w - 120 + 1, by norm_num, by norm_num, by omega, by norm_num [mdays] <;> omega, by norm_num [moff] <;> omega⟩
    rcases em (w ≤ 180) with h6 | h6
    · exact ⟨6, w - 151 + 1, by norm_num, by norm_num, by omega, by norm_num [mdays] <;> omega, by norm_num [moff] <;> omega⟩
    rcases em (w ≤ 211) with h7 | h7
    · exact ⟨7, w - 181 + 1, by norm_num, by norm_num, by omega, by norm_num [mdays] <;> omega, by norm_num [moff] <;> omega⟩
    rcases em (w ≤ 242) with h8 | h8
    · exact ⟨8, w - 212 + 1, by norm_num, by norm_num, by omega, by norm_num [mdays] <;> omega, by norm_num [moff] <;> omega⟩
    rcases em (w ≤ 272) with h9 | h9
    · exact ⟨9, w - 243 + 1, by norm_num, by norm_num, by omega, by norm_num [mdays] <;> omega, by norm_num [moff] <;> omega⟩
    rcases em (w ≤ 303) with h10 | h10
    · exact ⟨10, w - 273 + 1, by norm_num, by norm_num, by omega, by norm_num [mdays] <;> omega, by norm_num [moff] <;> omega⟩
    rcases em (w ≤ 333) with h11 | h11
    · exact ⟨11, w - 304 + 1, by norm_num, by norm_num, by omega, by norm_num [mdays] <;> omega, by norm_num [moff] <;> omega⟩
    exact ⟨12, w - 334 + 1, by norm_num, by norm_num, by omega, by norm_num [mdays] <;> omega, by norm_num [moff] <;> omega⟩
  · simp only [eq_self_iff_true, and_true, if_true] at hw2 ⊢
    rcases em (w ≤ 30) with h1 | h1
    · exact ⟨1, w + 1, by norm_num, by norm_num, by omega, by norm_num [mdays] <;> omega, by norm_num [moff] <;> omega⟩
    rcases em (w ≤ 59) with h2 | h2
    · exact ⟨2, w - 31 + 1, by norm_num, by norm_num, by omega, by norm_num [mdays] <;> omega, by norm_num [moff] <;> omega⟩
    rcases em (w ≤ 90) with h3 | h3
    · exact ⟨3, w - 60 + 1, by norm_num, by norm_num, by omega, by norm_num [mdays] <;> omega, by norm_num [moff] <;> omega⟩
    rcases em (w ≤ 120) with h4 | h4
    · exact ⟨4, w - 91 + 1, by norm_num, by norm_num, by omega, by norm_num [mdays] <;> omega, by norm_num [moff] <;> omega⟩
    rcases em (w ≤ 151) with h5 | h5
    · exact ⟨5, w - 121 + 1, by norm_num, by norm_num, by omega, by norm_num [mdays] <;> omega, by norm_num [moff] <;> omega⟩
    rcases em (w ≤ 181) with h6 | h6
    · exact ⟨6, w - 152 + 1, by norm_num, by norm_num, by omega, by norm_num [mdays] <;> omega, by norm_num [moff] <;> omega⟩
    rcases em (w ≤ 212) with h7 | h7
    · exact ⟨7, w - 182 + 1, by norm_num, by norm_num, by omega, by norm_num [mdays] <;> omega, by norm_num [moff] <;> omega⟩
    rcases em (w ≤ 243) with h8 | h8
    · exact ⟨8, w - 213 + 1, by norm_num, by norm_num, by omega, by norm_num [mdays] <;> omega, by norm_num [moff] <;> omega⟩
    rcases em (w ≤ 273) with h9 | h9
    · exact ⟨9, w - 244 + 1, by norm_num, by norm_num, by omega, by norm_num [mdays] <;> omega, by norm_num [moff] <;> omega⟩
    rcases em (w ≤ 304) with h10 | h10
    · exact ⟨10, w - 274 + 1, by norm_num, by norm_num, by omega, by norm_num [mdays] <;> omega, by norm_num [moff] <;> omega⟩
    rcases em (w ≤ 334) with h11 | h11
    · exact ⟨11, w - 305 + 1, by norm_num, by norm_num, by omega, by norm_num [mdays] <;> omega, by norm_num [moff] <;> omega⟩
    exact ⟨12, w - 335 + 1, by norm_num, by norm_num, by omega, by norm_num [mdays] <;> omega, by norm_num [moff] <;> omega⟩

set_option maxHeartbeats 1600000 in
/-- The value direction of the Gregorian inverse: for every integer `z`,
`RGDg z` is a valid proleptic Gregorian date whose ordinal `GD` is
`z + 1`. -/
theorem RGDg_zdir (z : ℤ) :
    ∃ y m d, RGDg z = (y, m, d) ∧ GD y m d = z + 1
      ∧ 1 ≤ m ∧ m ≤ 12 ∧ 1 ≤ d
      ∧ d ≤ mdays m + (if m = 2 ∧ is_gregorian_leapyear y = true then 1 else 0) := by
  simp only [RGDg]
  set a := z / 146097 with ha
  set R := z - 146097 * a with hR
  set b := R / 36524 with hb
  set S := R - 36524 * b with hS
  set c := S / 1461 with hc
  set d3 := S - 1461 * c with hd3
  set e := d3 / 365 with he
  have hRr : 0 ≤ R ∧ R ≤ 146096 := by omega
  have hbr : 0 ≤ b ∧ b ≤ 4 := by omega
  have hSr : 0 ≤ S ∧ S ≤ 36523 := by omega
  have hcr : 0 ≤ c ∧ c ≤ 24 := by omega
  have hd3r : 0 ≤ d3 ∧ d3 ≤ 1460 := by omega
  have her : 0 ≤ e ∧ e ≤ 4 := by omega
  rcases em (e ≠ 4 ∧ b ≠ 4) with hmain | hbnd
  · rw [if_pos (show ¬(e = 4 ∨ b = 4) by tauto), if_pos hmain]
    set w := d3 - 365 * e with hw
    set y := 400 * a + 100 * b + 4 * c + e + 1 with hy
    have hw364 : 0 ≤ w ∧ w ≤ 364 := by omega
    obtain ⟨m0, d0, hm1, hm2, hd1, hd2, hmd⟩ :=
      month_partition (is_gregorian_leapyear y) w hw364.1 (by split_ifs <;> omega)
    have hmf := mfroml_val (is_gregorian_leapyear y) m0 d0 hm1 hm2 hd1 hd2
    rw [hmd] at hmf
    have hMe : (12 * (w + (if is_gregorian_leapyear y then (if w < 60 then 0 else 1)
        else (if w < 59 then 0 else 2))) + 373) / 367 = m0 := hmf
    have hGDo : GD y m0 0
        = 146097 * a + 36524 * b + 1461 * c + 365 * e + moff (is_gregorian_leapyear y) m0 := by
      have h1 := GD_minus_start y m0 0
      have h2 : GD y 1 1 = 146097 * a + 36524 * b + 1461 * c + 365 * e + 1 :=
        GD_start_dec y a b c e hy (by omega) (by omega) (by omega) (by omega)
          (by omega) (by omega)
      omega
    have hzfull : z = 146097 * a + 36524 * b + 1461 * c + 365 * e + w := by omega
    refine ⟨y, m0, d0, ?_, ?_, hm1, hm2, hd1, hd2⟩
    · rw [hMe]
      simp only [Prod.mk.injEq, true_and]
      omega
    · rw [GD_day y m0 d0]
      omega
  · rw [if_neg (show ¬¬(e = 4 ∨ b = 4) by tauto), if_neg hbnd]
    rcases em (b = 4) with hb4 | hb4
    · have hzero : R = 146096 ∧ S = 0 ∧ c = 0 ∧ d3 = 0 ∧ e = 0 := by omega
      have hglp : is_gregorian_leapyear (400 * a + 100 * b + 4 * c + e) = true := by
        simp only [is_gregorian_leapyear]
        split_ifs <;> first | rfl | omega
      refine ⟨400 * a + 100 * b + 4 * c + e, 12, 31, rfl, ?_, by norm_num, by norm_num,
        by norm_num, ?_⟩
      · simp only [GD]
        rw [if_pos (by norm_num : (12:ℤ) > 2), if_pos hglp]
        omega
      · norm_num [mdays]
    · have he4 : e = 4 := by tauto
      have hc23 : c ≤ 23 := by omega
      have hb3' : b ≤ 3 := by omega
      have hd3v : d3 = 1460 := by omega
      have hzv : z = 146097 * a + 36524 * b + 1461 * c + 1460 := by omega
      have hglp : is_gregorian_leapyear (400 * a + 100 * b + 4 * c + e) = true := by
        simp only [is_gregorian_leapyear]
        split_ifs <;> first | rfl | omega
      refine ⟨400 * a + 100 * b + 4 * c + e, 12, 31, rfl, ?_, by norm_num, by norm_num,
        by norm_num, ?_⟩
      · simp only [GD]
        rw [if_pos (by norm_num : (12:ℤ) > 2), if_pos hglp]
        rw [he4]
        have hg4 : (400 * a + 100 * b + 4 * c + 4 - 1) / 4 = 100 * a + 25 * b + c := by omega
        have hg100 : (400 * a + 100 * b + 4 * c + 4 - 1) / 100 = 4 * a + b := by omega
        have hg400 : (400 * a + 100 * b + 4 * c + 4 - 1) / 400 = a := by omega
        omega
      · norm_num [mdays]

/-- The day-number value of `MJD(MINYEAR, 1, 1)` used as the lower bound
of both `Date` classes' `valid_mjd` range. -/
theorem MJDraw_min : MJDraw (-4712) 1 1 = -2400001 := by
  have h := zday_julian (-4712) 1 1 (by norm_num) (by norm_num) (by norm_num)
    ((reform_lt_iffZ (-4712) 1 1).mpr (by decide))
  have hJ : JJD (-4712) 1 1 = -1721423 := by decide
  omega

/-- The day-number value of `MJD(MAXYEAR, 12, 31)` used as the upper
bound of both `Date` classes' `valid_mjd` range. -/
theorem MJDraw_max : MJDraw 9999 12 31 = 2973483 := by
  have h := zday_greg 9999 12 31 (by norm_num) (by norm_num) (by norm_num)
    (fun hc => absurd ((reform_lt_iffZ 9999 12 31).mp hc) (by decide))
  have hG : GD 9999 12 31 = 3652059 := by decide
  omega

/-- The Meeus inverse recovers every valid civil date from its engine
day number `MJDraw + 2400001`: the integer core of the C1 round trip,
exposed for reuse by the `Date`-level developments. -/
theorem meeusInvT_MJDraw (y m d : ℤ) (hy : -4712 ≤ y) (hy2 : y ≤ 9999) (hm : 1 ≤ m)
    (hm2 : m ≤ 12) (hd : 1 ≤ d)
    (hd2 : d ≤ mdays m + (if m = 2 ∧ is_leapyear y = true then 1 else 0))
    (hgap : ¬(y = 1582 ∧ m = 10 ∧ 5 ≤ d ∧ d ≤ 14)) :
    0 ≤ MJDraw y m d + 2400001 ∧ meeusInvT (MJDraw y m d + 2400001) = (y, m, d) := by
  have hd31 : d ≤ 31 := by
    simp only [mdays] at hd2; split_ifs at hd2 <;> omega
  set z := MJDraw y m d + 2400001 with hzdef
  rcases em (((y : ℚ) + (m : ℚ) / 12) * 365.25 + (d : ℚ) < 578140) with hlt | hge
  · have hzeq : z = JJD y m d + 1721423 := zday_julian y m d hy hm hm2 hlt
    have hz0 : 0 ≤ z := hzeq ▸ JJD_lower y m d hy hm hm2 hd
    refine ⟨hz0, ?_⟩
    rw [meeusInvT_eq z hz0]
    have hltZ := (reform_lt_iffZ y m d).mp hlt
    have hd2' : d ≤ mdays m + (if m = 2 ∧ y % 4 = 0 then 1 else 0) := by
      rcases em (m = 2) with hm2' | hm2'
      · subst hm2'
        have hy1582 : y ≤ 1582 := by omega
        rw [if_congr (and_congr_right fun _ => is_leapyear_lo y hy1582) rfl rfl] at hd2
        exact hd2
      · simp only [hm2', false_and, if_false] at hd2 ⊢
        exact hd2
    rw [hzeq]
    simp only [meeusInv]
    rw [if_pos (show JJD y m d + 1721423 < 2299161 from
      JJD_branch_bound y m d hm hm2 hd hd31 hltZ hgap)]
    exact meeusA_JJD y m d hm hm2 hd hd2'
  · have hgeZ : ¬((12 * y + m) * 1461 + 48 * d < 27750720) :=
      fun hc => hge ((reform_lt_iffZ y m d).mpr hc)
    have hy1582 : 1582 ≤ y := by omega
    have hzeq : z = GD y m d + 1721425 := zday_greg y m d hy1582 hm hm2 hge
    have hbr : 2299161 ≤ z := by
      rw [hzeq]
      exact GD_branch_bound y m d hm hm2 hd hd31 (by omega) hgap
    have hz0 : 0 ≤ z := by omega
    refine ⟨hz0, ?_⟩
    rw [meeusInvT_eq z hz0]
    have hd2' : d ≤ mdays m + (if m = 2 ∧ is_gregorian_leapyear y = true then 1 else 0) := by
      rcases em (m = 2) with hm2' | hm2'
      · subst hm2'
        have hy1583 : 1583 ≤ y := by omega
        rw [if_congr (and_congr_right fun _ =>
          (is_leapyear_hi y hy1583).trans (is_gregorian_leapyear_iff y).symm) rfl rfl] at hd2
        exact hd2
      · simp only [hm2', false_and, if_false] at hd2 ⊢
        exact hd2
    rw [hzeq]
    exact meeusInv_GD y m d hm hm2 hd hd2' (by omega)

set_option maxHeartbeats 1000000 in
/-- A Julian engine day number below the reform branch point pins the
year to the pre-reform era, forces the forward heuristic to take the
Julian branch at its date, and keeps the date out of the reform gap. -/
theorem julian_z_facts (y m d z : ℤ) (hm : 1 ≤ m) (hm2 : m ≤ 12) (hd : 1 ≤ d)
    (hd31 : d ≤ 31) (hJ : JJD y m d = z - 1721423) (hz0 : 0 ≤ z) (hz : z ≤ 2299160) :
    -4712 ≤ y ∧ y ≤ 1582 ∧ ((12 * y + m) * 1461 + 48 * d < 27750720)
      ∧ ¬(y = 1582 ∧ m = 10 ∧ 5 ≤ d ∧ d ≤ 14) := by
  simp only [JJD, is_julian_leapyear, decide_eq_true_eq] at hJ
  interval_cases m <;> split_ifs at hJ <;> omega

/-- Clean-context year bound: a year at most 1581 has its January-1
Gregorian offset at most that of 1581. -/
theorem o1_le_1581 (y : ℤ) (hy : y ≤ 1581) :
    365 * (y - 1) + (y - 1) / 4 - (y - 1) / 100 + (y - 1) / 400 ≤ 577083 := by
  omega

/-- Clean-context year bound: a year at least 10000 has its January-1
Gregorian offset past the supported range. -/
theorem o1_ge_10000 (y : ℤ) (hy : 10000 ≤ y) :
    3652059 ≤ 365 * (y - 1) + (y - 1) / 4 - (y - 1) / 100 + (y - 1) / 400 := by
  omega

/-- In 1582, a day-of-year offset past the reform cut (288 or later)
forces the Gregorian branch of the forward heuristic, a date after the
reform gap and a month past February. -/
theorem moff_1582_cut (m d : ℤ) (hm : 1 ≤ m) (hm2 : m ≤ 12) (hd : 1 ≤ d) (hd31 : d ≤ 31)
    (hw : 288 ≤ moff false m + d) :
    ¬((12 * 1582 + m) * 1461 + 48 * d < 27750720) ∧ ¬(m = 10 ∧ 5 ≤ d ∧ d ≤ 14) ∧ m ≠ 2 := by
  simp only [moff, Bool.false_eq_true, if_false] at hw
  interval_cases m <;> split_ifs at hw <;> omega

set_option maxHeartbeats 1600000 in
/-- A Gregorian engine day number at or above the reform branch point
pins the year to the post-reform era, forces the forward heuristic to
take the Gregorian branch at its date, and keeps the date out of the
reform gap; a February date moreover forces `1583 <= y`. -/
theorem greg_z_facts (y m d z : ℤ) (hm : 1 ≤ m) (hm2 : m ≤ 12) (hd : 1 ≤ d)
    (hd31 : d ≤ 31) (hG : GD y m d = z - 1721425) (hz : 2299161 ≤ z)
    (hz2 : z ≤ 5373484) :
    1582 ≤ y ∧ y ≤ 9999 ∧ ¬((12 * y + m) * 1461 + 48 * d < 27750720)
      ∧ ¬(y = 1582 ∧ m = 10 ∧ 5 ≤ d ∧ d ≤ 14) ∧ (m = 2 → 1583 ≤ y) := by
  have hdec : GD y m d
      = 365 * (y - 1) + (y - 1) / 4 - (y - 1) / 100 + (y - 1) / 400
        + moff (is_gregorian_leapyear y) m + d := by
    simp only [GD, moff]
    split_ifs <;> ring
  rw [hG] at hdec
  obtain ⟨hB1, hB2, hB3, hB4, hB5⟩ := moff_bounds m hm hm2
  have hmd : 28 ≤ mdays m ∧ mdays m ≤ 31 := by
    simp only [mdays]; split_ifs <;> norm_num
  have hub : 0 ≤ moff (is_gregorian_leapyear y) m ∧ moff (is_gregorian_leapyear y) m ≤ 338 := by
    rcases Bool.eq_false_or_eq_true (is_gregorian_leapyear y) with hbb | hbb <;> rw [hbb]
    · exact ⟨hB2, by omega⟩
    · exact ⟨hB1, by omega⟩
  have hyb : 1582 ≤ y ∧ y ≤ 9999 := by
    constructor
    · by_contra hcon
      push_neg at hcon
      have hlt := o1_le_1581 y (by omega)
      omega
    · by_contra hcon
      push_neg at hcon
      have hge := o1_ge_10000 y (by omega)
      omega
  rcases em (y = 1582) with hy82 | hy82
  · subst hy82
    have hbf : is_gregorian_leapyear 1582 = false := by decide
    rw [hbf] at hdec
    have hw : 288 ≤ moff false m + d := by omega
    obtain ⟨hc1, hc2, hc3⟩ := moff_1582_cut m d hm hm2 hd hd31 hw
    refine ⟨by omega, by omega, hc1, ?_, ?_⟩
    · rintro ⟨-, h10, h5, h14⟩
      exact absurd ⟨h10, h5, h14⟩ hc2
    · intro hc
      exact absurd hc hc3
  · exact ⟨hyb.1, hyb.2, by omega, by omega, by omega⟩

/-- The value direction of the Julian inverse: for every integer `z`,
`RJDjZ z` is a valid proleptic Julian date whose ordinal `JJD` is
`z + 1`. -/
theorem RJDjZ_zdir (z : ℤ) :
    ∃ y m d, RJDjZ z = (y, m, d) ∧ JJD y m d = z + 1
      ∧ 1 ≤ m ∧ m ≤ 12 ∧ 1 ≤ d
      ∧ d ≤ mdays m + (if m = 2 ∧ is_julian_leapyear y = true then 1 else 0) := by
  set y := (4 * z + 1464) / 1461 with hy
  set w := z - (365 * (y - 1) + (y - 1) / 4) with hw
  have hzw : z = 365 * (y - 1) + (y - 1) / 4 + w := by omega
  have hw0 : 0 ≤ w := by omega
  have hw365 : w ≤ 365 := by omega
  have hw5 : w = 365 → y % 4 = 0 := by omega
  have hLiff : (is_julian_leapyear y = true) ↔ y % 4 = 0 := by
    simp [is_julian_leapyear]
  have hwB : w ≤ 364 + (if is_julian_leapyear y = true then 1 else 0) := by
    rcases em (y % 4 = 0) with h4 | h4
    · rw [if_pos (hLiff.mpr h4)]
      omega
    · rw [if_neg (fun hbb => h4 (hLiff.mp hbb))]
      rcases em (w = 365) with h5 | h5
      · exact absurd (hw5 h5) h4
      · omega
  obtain ⟨m0, d0, hm1, hm2, hd1, hd2, hmd⟩ :=
    month_partition (is_julian_leapyear y) w hw0 hwB
  have hoff : JJD y m0 0 = 365 * (y - 1) + (y - 1) / 4 + moff (is_julian_leapyear y) m0 := by
    simp only [JJD, moff]
    split_ifs <;> ring
  refine ⟨y, m0, d0, ?_, ?_, hm1, hm2, hd1, hd2⟩
  · rw [RJDjZ_main z y w hzw hw0 hw365 hw5]
    have hmf := mfroml_val (is_julian_leapyear y) m0 d0 hm1 hm2 hd1 hd2
    rw [hmd] at hmf
    rw [hmf]
    simp only [Prod.mk.injEq, true_and]
    omega
  · have hdec : JJD y m0 d0
        = 365 * (y - 1) + (y - 1) / 4 + moff (is_julian_leapyear y) m0 + d0 := by
      simp only [JJD, moff]
      split_ifs <;> ring
    omega

/-- The value direction of the engine scale: every day number `z` in the
supported range `[0, 5373484]` is the image of exactly the valid civil
date that the Meeus inverse returns for it. -/
theorem meeusInvT_z (z : ℤ) (h0 : 0 ≤ z) (h1 : z ≤ 5373484) :
    ∃ y m d, meeusInvT z = (y, m, d) ∧ MJDraw y m d + 2400001 = z
      ∧ -4712 ≤ y ∧ y ≤ 9999 ∧ 1 ≤ m ∧ m ≤ 12 ∧ 1 ≤ d
      ∧ d ≤ mdays m + (if m = 2 ∧ is_leapyear y = true then 1 else 0)
      ∧ ¬(y = 1582 ∧ m = 10 ∧ 5 ≤ d ∧ d ≤ 14) := by
  rcases em (z < 2299161) with hbr | hbr
  · obtain ⟨y, m, d, _, hJJD, hm1, hm2, hd1, hd2⟩ := RJDjZ_zdir (z - 1721424)
    have hJz : JJD y m d = z - 1721423 := by omega
    have hd31 : d ≤ 31 := by
      simp only [mdays] at hd2; split_ifs at hd2 <;> omega
    obtain ⟨hya, hyb, hheu, hgap⟩ :=
      julian_z_facts y m d z hm1 hm2 hd1 hd31 hJz h0 (by omega)
    have hconv : (m = 2 ∧ is_leapyear y = true) ↔ (m = 2 ∧ is_julian_leapyear y = true) :=
      and_congr_right fun _ => by
        rw [is_leapyear_lo y hyb]
        simp [is_julian_leapyear]
    have hd2' : d ≤ mdays m + (if m = 2 ∧ is_leapyear y = true then 1 else 0) := by
      rw [if_congr hconv rfl rfl]
      exact hd2
    have hmm := meeusInvT_MJDraw y m d hya (by omega) hm1 hm2 hd1 hd2' hgap
    have hzeq : MJDraw y m d + 2400001 = z := by
      have hzj := zday_julian y m d hya hm1 hm2 ((reform_lt_iffZ y m d).mpr hheu)
      omega
    exact ⟨y, m, d, hzeq ▸ hmm.2, hzeq, hya, by omega, hm1, hm2, hd1, hd2', hgap⟩
  · obtain ⟨y, m, d, _, hGDz, hm1, hm2, hd1, hd2⟩ := RGDg_zdir (z - 1721426)
    have hGz : GD y m d = z - 1721425 := by omega
    have hd31 : d ≤ 31 := by
      simp only [mdays] at hd2; split_ifs at hd2 <;> omega
    obtain ⟨hya, hyb, hheu, hgap, hm2y⟩ :=
      greg_z_facts y m d z hm1 hm2 hd1 hd31 hGz (by omega) h1
    have hconv : (m = 2 ∧ is_leapyear y = true) ↔ (m = 2 ∧ is_gregorian_leapyear y = true) := by
      constructor
      · rintro ⟨he, hl⟩
        exact ⟨he, (is_gregorian_leapyear_iff y).mpr ((is_leapyear_hi y (hm2y he)).mp hl)⟩
      · rintro ⟨he, hl⟩
        exact ⟨he, (is_leapyear_hi y (hm2y he)).mpr ((is_gregorian_leapyear_iff y).mp hl)⟩
    have hd2' : d ≤ mdays m + (if m = 2 ∧ is_leapyear y = true then 1 else 0) := by
      rw [if_congr hconv rfl rfl]
      exact hd2
    have hmm := meeusInvT_MJDraw y m d (by omega) hyb hm1 hm2 hd1 hd2' hgap
    have hzeq : MJDraw y m d + 2400001 = z := by
      have hneg : ¬(((y : ℚ) + (m : ℚ) / 12) * 365.25 + (d : ℚ) < 578140) :=
        fun hc => hheu ((reform_lt_iffZ y m d).mp hc)
      have hzg := zday_greg y m d hya hm1 hm2 hneg
      omega
    exact ⟨y, m, d, hzeq ▸ hmm.2, hzeq, by omega, hyb, hm1, hm2, hd1, hd2', hgap⟩

/-- `RMJD` at an integer day number at or above `-2400001`: the overflow
guard passes and the result is the Meeus inverse of `mjd + 2400001`
behind the month assert of `RJD`. -/
theorem RMJD_int (mjd : ℤ) (h : -2400001 ≤ mjd) :
    RMJD (mjd : ℚ)
      = if ¬(1 ≤ (meeusInvT (mjd + 2400001)).2.1 ∧ (meeusInvT (mjd + 2400001)).2.1 ≤ 12)
        then .error .assertFail
        else .ok (meeusInvT (mjd + 2400001)) := by
  have hcast : (mjd : ℚ) + MJD0 = ((mjd + 2400001 : ℤ) : ℚ) - 0.5 := by
    simp only [MJD0]
    push_cast
    ring
  simp only [RMJD]
  rw [hcast, RJD_halfint (mjd + 2400001) (by omega)]
  rcases em (1 ≤ (meeusInvT (mjd + 2400001)).2.1 ∧ (meeusInvT (mjd + 2400001)).2.1 ≤ 12)
    with hc | hc
  · rw [if_neg (not_not_intro hc), if_neg (not_not_intro hc)]
    rfl
  · rw [if_pos hc, if_pos hc]
    rfl

/-- Changing only the day argument of `JDraw` within one branch of the
reform test shifts the result by exactly the day difference. -/
theorem JDraw_dshift (y m : ℤ) (d q : ℚ)
    (h1 : (((y : ℚ) + (m : ℚ) / 12) * 365.25 + d < 578140)
        ↔ (((y : ℚ) + (m : ℚ) / 12) * 365.25 + q < 578140)) :
    JDraw y m d - d = JDraw y m q - q := by
  simp only [JDraw]
  rcases em (((y : ℚ) + (m : ℚ) / 12) * 365.25 + d < 578140) with hc | hc
  · rw [if_pos hc, if_pos (h1.mp hc)]
    ring
  · rw [if_neg hc, if_neg (fun hq => hc (h1.mpr hq))]
    ring

/-- C8 (amended): the MJD epoch anchor is exact, `MJD(1858,11,17) = 0`;
`MJD` is the same transform as `JD` offset by the constant `2400000.5`,
both forward (`JDraw y m d = MJDraw y m d + 2400000.5` on whole days)
and backward (`RMJD` is by definition `RJD` at `mjd + MJD0` with the day
fraction dropped, and `MJD0 = 2400000.5`); and the JD zero point is NOON
of -4712-01-01 in the Julian reading: `JD(-4712, 1, 1.5) = 0`. -/
theorem C8_epoch_anchors :
    MJD 1858 11 17 = .ok 0
    ∧ (∀ y m d : ℤ, JDraw y m (d : ℚ) = ((MJDraw y m d : ℤ) : ℚ) + 2400000.5)
    ∧ JD (-4712) 1 (3 / 2 : ℚ) = .ok 0
    ∧ MJD0 = 2400000.5
    ∧ (∀ q : ℚ, RMJD q = (RJD (q + MJD0)).map fun t => (t.1, t.2.1, t.2.2.1)) := by
  refine ⟨?_, ?_, ?_, rfl, fun q => rfl⟩
  · have h := zday_greg 1858 11 17 (by norm_num) (by norm_num) (by norm_num)
      (fun hc => absurd ((reform_lt_iffZ 1858 11 17).mp hc) (by decide))
    have hG : GD 1858 11 17 = 678576 := by decide
    have hM : MJDraw 1858 11 17 = 0 := by omega
    simp only [MJD]
    split_ifs with h1 h2
    · norm_num at h1
    · rcases h2 with ⟨ha, -⟩
      norm_num at ha
    · rw [hM]
  · intro y m d
    rw [JDraw_halfint]
    push_cast
    ring
  · have hJg : JD (-4712) 1 (3 / 2 : ℚ) = .ok (JDraw (-4712) 1 (3 / 2 : ℚ)) := by
      simp only [JD]
      split_ifs with h1 h2
      · norm_num at h1
      · rcases h2 with ⟨ha, -⟩
        norm_num at ha
      · rfl
    have hiff : ((((-4712 : ℤ) : ℚ) + ((1 : ℤ) : ℚ) / 12) * 365.25 + ((1 : ℤ) : ℚ) < 578140)
        ↔ ((((-4712 : ℤ) : ℚ) + ((1 : ℤ) : ℚ) / 12) * 365.25 + (3 / 2 : ℚ) < 578140) :=
      iff_of_true (by push_cast; norm_num) (by push_cast; norm_num)
    have hsh := JDraw_dshift (-4712) 1 ((1 : ℤ) : ℚ) (3 / 2 : ℚ) hiff
    rw [JDraw_halfint (-4712) 1 1, MJDraw_min] at hsh
    have hval : JDraw (-4712) 1 (3 / 2 : ℚ) = 0 := by
      push_cast at hsh
      norm_num at hsh
      linarith
    rw [hJg, hval]

/-- Counterexample to the spec's second anchor: the day argument of `JD`
is midnight-based, so `JD(-4712, 1, 1)` is `-0.5`, not `0`. -/
theorem C8_jd_anchor_cx :
    JD (-4712) 1 ((1 : ℤ) : ℚ) = .ok (-(1 / 2) : ℚ) ∧ (-(1 / 2) : ℚ) ≠ 0 := by
  constructor
  · have hJg : JD (-4712) 1 ((1 : ℤ) : ℚ) = .ok (JDraw (-4712) 1 ((1 : ℤ) : ℚ)) := by
      simp only [JD]
      split_ifs with h1 h2
      · norm_num at h1
      · rcases h2 with ⟨ha, -⟩
        norm_num at ha
      · rfl
    rw [hJg, JDraw_halfint, MJDraw_min]
    simp only [Except.ok.injEq]
    push_cast
    norm_num
  · norm_num

end dtmath

instance {e a : Type} [DecidableEq e] [DecidableEq a] : DecidableEq (Except e a) := fun x y =>
  match x, y with
  | .ok u, .ok v =>
    if h : u = v then .isTrue (by rw [h]) else .isFalse (by simp [h])
  | .error u, .error v =>
    if h : u = v then .isTrue (by rw [h]) else .isFalse (by simp [h])
  | .ok _, .error _ => .isFalse (by simp)
  | .error _, .ok _ => .isFalse (by simp)

namespace calendar

open dtmath

/-- `calendar.MINYEAR` / `MAXYEAR` from `cnav/calendar.py`. -/

def MINYEAR : ℤ := -4712

def MAXYEAR : ℤ := 9999

/-- `Calendar.JD0 = 1721423` and `Calendar.GD0 = JD0 + 2`. -/
def JD0 : ℤ := 1721423

def GD0 : ℤ := JD0 + 2

/-- Python tuple comparison `(y, m, d) >= rd`: lexicographic. -/
def lexge (a b : ℤ × ℤ × ℤ) : Bool :=
  decide (b.1 < a.1 ∨ (b.1 = a.1 ∧ (b.2.1 < a.2.1 ∨ (b.2.1 = a.2.1 ∧ b.2.2 ≤ a.2.2))))

/-- The mutable state of a `Calendar` object: `_gregorian_reform_date`
and `reform = (jdl, jdh)`. -/
structure CalState where
  reform_date : ℤ × ℤ × ℤ
  reform : ℤ × ℤ
deriving DecidableEq, Repr

/-- `Calendar.is_gregorian`: lexicographic comparison with the reform
date. -/
def is_gregorian (st : CalState) (y m d : ℤ) : Bool :=
  lexge (y, m, d) st.reform_date

/-- `Calendar.is_leapyear`: reform-aware rule selection.
`Calendar._is_gregorian_leapyear` / `_is_julian_leapyear` repeat the
module-level functions verbatim, so the `dtmath` embeddings are used. -/
def is_leapyear (st : CalState) (y : ℤ) : Bool :=
  if is_gregorian st y 2 29 then is_gregorian_leapyear y
  else is_julian_leapyear y

/-- `Calendar._check_date_fields(year, month, day, calendar)`; the
`calendar` code is `default = 0`, `julian = 1`, `gregorian = 2`,
`mixed = 3` (the source tests `[default, mixed]`, then `gregorian`,
then `julian`, and raises for anything else). -/
def check_date_fields (st : CalState) (c : ℤ) (y m d : ℤ) : Except PyErr (ℤ × ℤ × ℤ) :=
  if ¬(MINYEAR ≤ y ∧ y ≤ MAXYEAR) then .error .value
  else if ¬(1 ≤ m ∧ m ≤ 12) then .error .value
  else if ¬(c = 0 ∨ c = 3 ∨ c = 2 ∨ c = 1) then .error .value
  else
    let leap : Bool :=
      if c = 0 ∨ c = 3 then is_leapyear st y
      else if c = 2 then is_gregorian_leapyear y
      else is_julian_leapyear y
    let dmax := mdays m + (if m = 2 ∧ leap = true then 1 else 0)
    if ¬(1 ≤ d ∧ d ≤ dmax) then .error .value
    else .ok (y, m, d)

/-- `Calendar._GD = _GD0 + GD0`; `Calendar._GD0` repeats the module
function `dtmath.GD` verbatim. -/
def calGD (y m d : ℤ) : ℤ := GD y m d + GD0

/-- `Calendar._JD = _JD0 + JD0`; `Calendar._JD0` repeats the module
function `dtmath.JJD` verbatim. -/
def calJJD (y m d : ℤ) : ℤ := JJD y m d + JD0

/-- `Calendar._RGD`: its body repeats the module inverse on
`jd - GD0 - 1` (`RGDg` here; on integers the float `//`, `%` of the
source are `/` and the subtraction form of the remainder). -/
def calRGD (jd : ℤ) : ℤ × ℤ × ℤ := RGDg (jd - GD0 - 1)

/-- `Calendar._RJD`: its body repeats the module inverse on
`jd - JD0 - 1` (`RJDjZ` here). -/
def calRJDj (jd : ℤ) : ℤ × ℤ × ℤ := RJDjZ (jd - JD0 - 1)

/-- `Calendar.JD`: validate, then the Gregorian ordinal for dates on or
after the reform date, else the Julian ordinal guarded against the
dropped days `[jdl, jdh)`. -/
def calJD (st : CalState) (y m d : ℤ) : Except PyErr ℤ :=
  match check_date_fields st 3 y m d with
  | .error e => .error e
  | .ok (y, m, d) =>
    if is_gregorian st y m d then .ok (calGD y m d)
    else
      let jd := calJJD y m d
      if st.reform.1 ≤ jd ∧ jd < st.reform.2 then .error .value
      else .ok jd

/-- `Calendar.RJD`: the Gregorian inverse for `jd >= reform[0]`, else
the Julian inverse, then re-validation. -/
def calRJD (st : CalState) (jd : ℤ) : Except PyErr (ℤ × ℤ × ℤ) :=
  let t := if st.reform.1 ≤ jd then calRGD jd else calRJDj jd
  check_date_fields st 3 t.1 t.2.1 t.2.2

/-- `Calendar.setJulian`: reform date past `MAXYEAR` and the sentinel
`reform = (1, -1)`. -/
def setJulianState : CalState := ⟨(MAXYEAR + 1, 1, 1), (1, -1)⟩

/-- `Calendar.setGregorian`: `reform = (-1, -1)`. -/
def setGregorianState : CalState := ⟨(-4712, 1, 1), (-1, -1)⟩

/-- `Calendar.setMixed`: validate the reform date under the Gregorian
rule, assert it is at least (200, 3, 1), then store
`reform = (_GD(date), _JD(date))`. -/
def setMixed (y m d : ℤ) : Except PyErr CalState :=
  match check_date_fields ⟨(0, 0, 0), (0, 0)⟩ 2 y m d with
  | .error e => .error e
  | .ok (y, m, d) =>
    if ¬ lexge (y, m, d) (200, 3, 1) then .error .assertFail
    else .ok ⟨(y, m, d), (calGD y m d, calJJD y m d)⟩

/-- `Calendar.setDefault`: `setMixed(1582, 10, 15)`. -/
def defaultState : Except PyErr CalState := setMixed 1582 10 15


/-- C2 (code bug): under `setJulian` the engine conversions are not
mutually inverse.  `setJulian` stores the sentinel `reform = (1, -1)`,
and `Calendar.RJD` routes every `jd >= reform[0] = 1` through the
Gregorian inverse `_RGD`, so the valid Julian date 2000-01-01
(jd 2451558) comes back as 2000-01-14. -/
theorem C2_setJulian_not_inverse :
    calJD setJulianState 2000 1 1 = .ok 2451558
    ∧ calRJD setJulianState 2451558 = .ok (2000, 1, 14) := by decide

/-- C3: under the default engine the day after 1582-10-04 (jd 2299160)
is 1582-10-15 (jd 2299161), and every day 5..14 of October 1582 is
rejected with a `ValueError` (a surfaced, recoverable validation error;
no date is returned). -/
theorem C3_reform_gap :
    defaultState = .ok ⟨(1582, 10, 15), (2299161, 2299171)⟩
    ∧ calJD ⟨(1582, 10, 15), (2299161, 2299171)⟩ 1582 10 4 = .ok 2299160
    ∧ calJD ⟨(1582, 10, 15), (2299161, 2299171)⟩ 1582 10 15 = .ok 2299161
    ∧ ((List.range 10).all fun i =>
        decide (calJD ⟨(1582, 10, 15), (2299161, 2299171)⟩ 1582 10 (5 + (i : ℤ))
          = .error .value)) = true := by decide


/-- `Calendar.isoweekday`: `int(jd + 0.5) % 7 + 1` (1 = Monday). -/
def isoweekday (jd : ℤ) : ℤ := pytrunc ((jd : ℚ) + 0.5) % 7 + 1

/-- On nonnegative day numbers the truncation in `isoweekday` is the
identity. -/
theorem isoweekday_int (jd : ℤ) (h : 0 ≤ jd) : isoweekday jd = jd % 7 + 1 := by
  have h1 : pytrunc ((jd : ℚ) + 0.5) = jd := by
    unfold pytrunc
    rw [if_pos (by positivity)]
    rw [show ((jd : ℚ) + 0.5) = 0.5 + (jd : ℚ) by ring, Int.floor_add_int]
    norm_num
  rw [isoweekday, h1]

/-- `Calendar._iso_weeks_in_year`: `p(y) = y + floor(y/4) - floor(y/100)
+ floor(y/400)` (the float division and `floor` are exact on this range)
and the 53-week test. -/
def pfun (y : ℤ) : ℤ := y + y / 4 - y / 100 + y / 400

def iso_weeks_in_year (y : ℤ) : ℤ :=
  if pfun y % 7 = 4 ∨ pfun (y - 1) % 7 = 3 then 53 else 52

theorem pfun_step (t : ℤ) :
    pfun t = pfun (t - 1) + 1 + (if is_gregorian_leapyear t = true then 1 else 0) := by
  rcases em (t % 4 = 0 ∧ (t % 100 ≠ 0 ∨ t % 400 = 0)) with hch | hch
  · rw [if_pos ((is_gregorian_leapyear_iff t).mpr hch)]
    simp only [pfun]
    omega
  · rw [if_neg (fun hb => hch ((is_gregorian_leapyear_iff t).mp hb))]
    simp only [pfun]
    omega

/-- `Calendar.G2I`: guard with the module-level float heuristic, validate,
then Thursday-anchored ISO components.  Error propagation of
`_check_date_fields` is written with `bind`. -/
def G2I (st : CalState) (y m d : ℤ) : Except PyErr (ℤ × ℤ × ℤ) :=
  if ¬ dtmath.is_gregorian y m d then .error .value
  else
    (check_date_fields st 3 y m d).bind fun _ =>
      let jd := calGD y m d
      let iso_weekday := isoweekday jd
      let jd_thursday := jd + 4 - iso_weekday
      let iso_year := (calRGD jd_thursday).1
      let jd_1_1 := calGD iso_year 1 1
      let weekday_1_1 := isoweekday jd_1_1
      let first_thursday := (4 - weekday_1_1) % 7 + 1
      let jd_first_thursday := calGD iso_year 1 first_thursday
      let iso_weeknum := (jd_thursday - jd_first_thursday) / 7 + 1
      .ok (iso_year, iso_weeknum, iso_weekday)

/-- `Calendar.I2G`: validate the ISO components, then the day offset from
the first Thursday of the year. -/
def I2G (st : CalState) (year week day : ℤ) : Except PyErr (ℤ × ℤ × ℤ) :=
  if ¬(MINYEAR ≤ year ∧ year ≤ MAXYEAR) then .error .value
  else if ¬(1 ≤ day ∧ day ≤ 7) then .error .value
  else if ¬(1 ≤ week ∧ week ≤ iso_weeks_in_year year) then .error .value
  else
    let jd_1_1 := calGD year 1 1
    let weekday_1_1 := isoweekday jd_1_1
    let first_thursday := (4 - weekday_1_1) % 7 + 1
    let jd_first_thursday := calGD year 1 first_thursday
    let jd := jd_first_thursday + (7 * (week - 1) + day - 4)
    .ok (calRGD jd)

set_option maxHeartbeats 3000000 in
/-- Core of the ISO round trip: on a valid post-reform Gregorian date
that passes the engine validation, `I2G` applied to the `G2I` components
returns the date. -/
theorem G2I_I2G_core (st : CalState) (y m d : ℤ) (hy : 1583 ≤ y) (hy2 : y ≤ 9999)
    (hm : 1 ≤ m) (hm2 : m ≤ 12) (hd : 1 ≤ d)
    (hd2 : d ≤ mdays m + (if m = 2 ∧ is_gregorian_leapyear y = true then 1 else 0))
    (hchk : check_date_fields st 3 y m d = .ok (y, m, d)) :
    (G2I st y m d).bind (fun t => I2G st t.1 t.2.1 t.2.2) = .ok (y, m, d) := by
  have hd31 : d ≤ 31 := by
    simp only [mdays] at hd2
    split_ifs at hd2 <;> omega
  have hguard : dtmath.is_gregorian y m d = true := by
    rw [is_gregorian_iff]
    omega
  -- bounds for J := calGD y m d
  have hGD0v : GD0 = 1721425 := by decide
  have hmsy := GD_minus_start y m d
  have hsvy := GD_start_val y
  have hmoy : 0 ≤ moff (is_gregorian_leapyear y) m
      ∧ moff (is_gregorian_leapyear y) m + d - 1
          ≤ 364 + (if is_gregorian_leapyear y = true then 1 else 0) := by
    obtain ⟨hB1, hB2, hB3, hB4, hB5⟩ := moff_bounds m hm hm2
    rcases Bool.eq_false_or_eq_true (is_gregorian_leapyear y) with hb | hb
    · rw [hb]
      simp only [if_true]
      rcases em (m = 2) with h2 | h2
      · have : d ≤ 29 := by rw [h2] at hd2; simp only [mdays] at hd2; split_ifs at hd2 <;> omega
        subst h2
        have hv : moff true 2 = 31 := by decide
        omega
      · have : d ≤ mdays m := by
          rw [if_neg (fun hc : m = 2 ∧ is_gregorian_leapyear y = true => h2 hc.1)] at hd2
          omega
        rw [if_neg h2] at hB4
        omega
    · rw [hb]
      simp only [Bool.false_eq_true, if_false, add_zero]
      have : d ≤ mdays m := by
        rw [if_neg (fun hc : m = 2 ∧ is_gregorian_leapyear y = true => by
          rw [hb] at hc; exact absurd hc.2 (by simp))] at hd2
        omega
      omega
  have hJval : calGD y m d = GD y m d + GD0 := rfl
  have hJr1 : GD y 1 1 ≤ GD y m d := by omega
  have hJ0 : 0 ≤ calGD y m d := by omega
  have hJle : calGD y m d ≤ 5373484 := by
    rcases Bool.eq_false_or_eq_true (is_gregorian_leapyear y) with hb | hb
    · have hy4 : y % 4 = 0 := ((is_gregorian_leapyear_iff y).mp hb).1
      rw [hb] at hmoy hmsy
      simp at hmoy
      omega
    · rw [hb] at hmoy hmsy
      simp at hmoy
      omega
  simp only [G2I]
  rw [if_neg (not_not_intro hguard), hchk]
  rw [isoweekday_int (calGD y m d) hJ0]
  obtain ⟨iy, im, idd, hRG, hGDiy, him1, him2, hid1, hid2⟩ :=
    RGDg_zdir (calGD y m d + 4 - (calGD y m d % 7 + 1) - GD0 - 1)
  have hcalRG : calRGD (calGD y m d + 4 - (calGD y m d % 7 + 1)) = (iy, im, idd) := by
    simp only [calRGD]
    exact hRG
  rw [hcalRG]
  rw [show ((iy, im, idd) : ℤ × ℤ × ℤ).1 = iy from rfl]
  -- facts about iy
  have hmsiy := GD_minus_start iy im idd
  have hsviy := GD_start_val iy
  have hmoiy : 0 ≤ moff (is_gregorian_leapyear iy) im
      ∧ moff (is_gregorian_leapyear iy) im + idd - 1
          ≤ 364 + (if is_gregorian_leapyear iy = true then 1 else 0) := by
    obtain ⟨hB1, hB2, hB3, hB4, hB5⟩ := moff_bounds im him1 him2
    rcases Bool.eq_false_or_eq_true (is_gregorian_leapyear iy) with hb | hb
    · rw [hb]
      simp only [if_true]
      rcases em (im = 2) with h2 | h2
      · have : idd ≤ 29 := by
          rw [h2] at hid2; simp only [mdays] at hid2; split_ifs at hid2 <;> omega
        subst h2
        have hv : moff true 2 = 31 := by decide
        omega
      · have : idd ≤ mdays im := by
          rw [if_neg (fun hc : im = 2 ∧ is_gregorian_leapyear iy = true => h2 hc.1)] at hid2
          omega
        rw [if_neg h2] at hB4
        omega
    · rw [hb]
      simp only [Bool.false_eq_true, if_false, add_zero]
      have : idd ≤ mdays im := by
        rw [if_neg (fun hc : im = 2 ∧ is_gregorian_leapyear iy = true => by
          rw [hb] at hc; exact absurd hc.2 (by simp))] at hid2
        omega
      omega
  have hiyr1 : GD iy 1 1 ≤ GD iy im idd := by omega
  have hiyr2 : GD iy im idd ≤ GD iy 1 1 + 365 := by
    rcases Bool.eq_false_or_eq_true (is_gregorian_leapyear iy) with hb | hb <;>
      rw [hb] at hmoiy hmsiy <;> simp at hmoiy <;> omega
  have hiylow : 1582 ≤ iy := by omega
  have hiyhigh : iy ≤ 9999 := by omega
  have h110 : 0 ≤ calGD iy 1 1 := by
    have : calGD iy 1 1 = GD iy 1 1 + GD0 := rfl
    omega
  rw [isoweekday_int (calGD iy 1 1) h110]
  -- first-thursday value
  have hmoff1 : moff (is_gregorian_leapyear iy) 1 = 0 := by
    rcases Bool.eq_false_or_eq_true (is_gregorian_leapyear iy) with hb | hb <;>
      rw [hb] <;> decide
  have hmsf := GD_minus_start iy 1 ((4 - (calGD iy 1 1 % 7 + 1)) % 7 + 1)
  have hFval : calGD iy 1 ((4 - (calGD iy 1 1 % 7 + 1)) % 7 + 1)
      = GD iy 1 1 + GD0 + (4 - (calGD iy 1 1 % 7 + 1)) % 7 := by
    have h1 : calGD iy 1 ((4 - (calGD iy 1 1 % 7 + 1)) % 7 + 1)
        = GD iy 1 ((4 - (calGD iy 1 1 % 7 + 1)) % 7 + 1) + GD0 := rfl
    omega
  have h11eq : calGD iy 1 1 = GD iy 1 1 + GD0 := rfl
  -- mod-7 facts and week bounds
  have hrp : calGD iy 1 1 % 7 = pfun (iy - 1) % 7 := by
    simp only [pfun]
    omega
  have hlp := pfun_step iy
  have hT7 : (calGD y m d + 4 - (calGD y m d % 7 + 1)) % 7 = 3 := by omega
  have hF7 : (calGD iy 1 ((4 - (calGD iy 1 1 % 7 + 1)) % 7 + 1)) % 7 = 3 := by
    rw [hFval]
    omega
  have hwk1 : 1 ≤ (calGD y m d + 4 - (calGD y m d % 7 + 1)
      - calGD iy 1 ((4 - (calGD iy 1 1 % 7 + 1)) % 7 + 1)) / 7 + 1 := by
    omega
  have hwk2 : (calGD y m d + 4 - (calGD y m d % 7 + 1)
      - calGD iy 1 ((4 - (calGD iy 1 1 % 7 + 1)) % 7 + 1)) / 7 + 1
      ≤ iso_weeks_in_year iy := by
    rcases em (pfun iy % 7 = 4 ∨ pfun (iy - 1) % 7 = 3) with h53 | h52
    · rw [iso_weeks_in_year, if_pos h53]
      omega
    · rw [iso_weeks_in_year, if_neg h52]
      have hnot3 : pfun (iy - 1) % 7 ≠ 3 := fun hc => h52 (Or.inr hc)
      rcases Bool.eq_false_or_eq_true (is_gregorian_leapyear iy) with hb | hb
      · rw [hb] at hmoiy hmsiy hlp
        simp at hmoiy hlp
        have hnot2 : pfun (iy - 1) % 7 ≠ 2 := by
          intro hc
          exact h52 (Or.inl (by omega))
        have hstep : 2 ≤ (4 - (calGD iy 1 1 % 7 + 1)) % 7 := by omega
        omega
      · rw [hb] at hmoiy hmsiy hlp
        simp at hmoiy hlp
        have hstep : 1 ≤ (4 - (calGD iy 1 1 % 7 + 1)) % 7 := by omega
        omega
  -- reduce the binds and I2G
  show I2G st iy _ _ = _
  simp only [I2G]
  rw [isoweekday_int (calGD iy 1 1) h110]
  rw [if_neg (not_not_intro ⟨show MINYEAR ≤ iy by rw [show (MINYEAR : ℤ) = -4712 from rfl]; omega,
    show iy ≤ MAXYEAR by rw [show (MAXYEAR : ℤ) = 9999 from rfl]; omega⟩)]
  rw [if_neg (not_not_intro ⟨by omega, by omega⟩)]
  rw [if_neg (not_not_intro ⟨hwk1, hwk2⟩)]
  have hjdI : calGD iy 1 ((4 - (calGD iy 1 1 % 7 + 1)) % 7 + 1)
      + (7 * ((calGD y m d + 4 - (calGD y m d % 7 + 1)
          - calGD iy 1 ((4 - (calGD iy 1 1 % 7 + 1)) % 7 + 1)) / 7 + 1 - 1)
        + (calGD y m d % 7 + 1) - 4) = calGD y m d := by
    omega
  rw [hjdI]
  have hfin : calRGD (calGD y m d) = (y, m, d) := by
    simp only [calRGD]
    rw [show calGD y m d - GD0 - 1 = GD y m d - 1 by rw [hJval]; ring]
    exact RGDg_GD y m d hm hm2 hd hd2
  rw [hfin]

/-- Under the default reform state the engine validation accepts exactly
the Gregorian-rule dates (for years at least 1583). -/
theorem check_default (y m d : ℤ) (hy : 1583 ≤ y) (hy2 : y ≤ 9999)
    (hm : 1 ≤ m) (hm2 : m ≤ 12) (hd : 1 ≤ d)
    (hd2 : d ≤ mdays m + (if m = 2 ∧ is_gregorian_leapyear y = true then 1 else 0)) :
    check_date_fields ⟨(1582, 10, 15), (2299161, 2299171)⟩ 3 y m d = .ok (y, m, d) := by
  have hlg : is_leapyear ⟨(1582, 10, 15), (2299161, 2299171)⟩ y = is_gregorian_leapyear y := by
    simp only [is_leapyear, is_gregorian, lexge, decide_eq_true_eq]
    rw [if_pos (Or.inl (by omega))]
  simp only [check_date_fields]
  rw [if_neg (not_not_intro ⟨show MINYEAR ≤ y by rw [show (MINYEAR : ℤ) = -4712 from rfl]; omega,
    show y ≤ MAXYEAR by rw [show (MAXYEAR : ℤ) = 9999 from rfl]; omega⟩)]
  rw [if_neg (not_not_intro ⟨hm, hm2⟩)]
  rw [if_neg (not_not_intro (by norm_num))]
  simp only [show ((3 : ℤ) = 0 ∨ True) = True from by simp, if_true, hlg]
  rw [if_neg (not_not_intro ⟨hd, hd2⟩)]

/-- Modelling helper: `G2I` with both truncations already resolved, a
purely integral form used to evaluate concrete examples. -/
def G2IZ (st : CalState) (y m d : ℤ) : ℤ × ℤ × ℤ :=
  let jd := calGD y m d
  let iso_weekday := jd % 7 + 1
  let jd_thursday := jd + 4 - iso_weekday
  let iso_year := (calRGD jd_thursday).1
  let jd_1_1 := calGD iso_year 1 1
  let weekday_1_1 := jd_1_1 % 7 + 1
  let first_thursday := (4 - weekday_1_1) % 7 + 1
  let jd_first_thursday := calGD iso_year 1 first_thursday
  let iso_weeknum := (jd_thursday - jd_first_thursday) / 7 + 1
  (iso_year, iso_weeknum, iso_weekday)

theorem G2I_evalZ (st : CalState) (y m d : ℤ)
    (hg : dtmath.is_gregorian y m d = true)
    (hchk : check_date_fields st 3 y m d = .ok (y, m, d))
    (h1 : 0 ≤ calGD y m d)
    (h2 : 0 ≤ calGD ((calRGD (calGD y m d + 4 - (calGD y m d % 7 + 1))).1) 1 1) :
    G2I st y m d = .ok (G2IZ st y m d) := by
  simp only [G2I, G2IZ]
  rw [if_neg (not_not_intro hg), hchk]
  rw [isoweekday_int (calGD y m d) h1]
  rw [isoweekday_int (calGD ((calRGD (calGD y m d + 4 - (calGD y m d % 7 + 1))).1) 1 1) h2]
  rfl

/-- Modelling helper: `I2G` with the truncation resolved, a purely
integral form used to evaluate concrete examples. -/
def I2GZ (st : CalState) (year week day : ℤ) : ℤ × ℤ × ℤ :=
  let jd_1_1 := calGD year 1 1
  let weekday_1_1 := jd_1_1 % 7 + 1
  let first_thursday := (4 - weekday_1_1) % 7 + 1
  let jd_first_thursday := calGD year 1 first_thursday
  let jd := jd_first_thursday + (7 * (week - 1) + day - 4)
  calRGD jd

theorem I2G_evalZ (st : CalState) (year week day : ℤ)
    (hv : MINYEAR ≤ year ∧ year ≤ MAXYEAR) (hdd : 1 ≤ day ∧ day ≤ 7)
    (hw : 1 ≤ week ∧ week ≤ iso_weeks_in_year year)
    (h1 : 0 ≤ calGD year 1 1) :
    I2G st year week day = .ok (I2GZ st year week day) := by
  simp only [I2G, I2GZ]
  rw [if_neg (not_not_intro hv), if_neg (not_not_intro hdd), if_neg (not_not_intro hw)]
  rw [isoweekday_int (calGD year 1 1) h1]

/-- Full integral evaluation of the round trip at one concrete date. -/
theorem G2I_I2G_eval (st : CalState) (y m d : ℤ)
    (hg : dtmath.is_gregorian y m d = true)
    (hchk : check_date_fields st 3 y m d = .ok (y, m, d))
    (h1 : 0 ≤ calGD y m d)
    (h2 : 0 ≤ calGD ((calRGD (calGD y m d + 4 - (calGD y m d % 7 + 1))).1) 1 1)
    (hv : MINYEAR ≤ (G2IZ st y m d).1 ∧ (G2IZ st y m d).1 ≤ MAXYEAR)
    (hdd : 1 ≤ (G2IZ st y m d).2.2 ∧ (G2IZ st y m d).2.2 ≤ 7)
    (hw : 1 ≤ (G2IZ st y m d).2.1 ∧ (G2IZ st y m d).2.1 ≤ iso_weeks_in_year (G2IZ st y m d).1)
    (h3 : 0 ≤ calGD (G2IZ st y m d).1 1 1) :
    (G2I st y m d).bind (fun t => I2G st t.1 t.2.1 t.2.2)
      = .ok (I2GZ st (G2IZ st y m d).1 (G2IZ st y m d).2.1 (G2IZ st y m d).2.2) := by
  rw [G2I_evalZ st y m d hg hchk h1 h2]
  show I2G st (G2IZ st y m d).1 (G2IZ st y m d).2.1 (G2IZ st y m d).2.2 = _
  rw [I2G_evalZ st _ _ _ hv hdd hw h3]

set_option maxHeartbeats 4000000 in
/-- The ISO round trip on the post-reform remainder of 1582
(1582-10-15 .. 1582-12-31), by direct evaluation. -/
theorem roundtrip_1582 (m d : ℤ)
    (h : (m = 10 ∧ 15 ≤ d ∧ d ≤ 31) ∨ (m = 11 ∧ 1 ≤ d ∧ d ≤ 30)
      ∨ (m = 12 ∧ 1 ≤ d ∧ d ≤ 31)) :
    (G2I ⟨(1582, 10, 15), (2299161, 2299171)⟩ 1582 m d).bind
        (fun t => I2G ⟨(1582, 10, 15), (2299161, 2299171)⟩ t.1 t.2.1 t.2.2)
      = .ok (1582, m, d) := by
  rcases h with ⟨hm, hd1, hd2⟩ | ⟨hm, hd1, hd2⟩ | ⟨hm, hd1, hd2⟩ <;> subst hm <;>
    interval_cases d <;>
    (rw [G2I_I2G_eval _ 1582 _ _ (by rw [is_gregorian_iff]; decide) (by decide) (by decide)
        (by decide) (by decide) (by decide) (by decide) (by decide)]; decide)

/-- C5: under the default engine state, the ISO week-date conversion
round-trips on every valid post-reform Gregorian date (the tail of 1582
from the reform day 1582-10-15 on, and every date of 1583..9999):
`I2G` applied to the components of `G2I` returns the date; concretely
`G2I 2003-12-29 = (2004, 1, 1)` and `G2I 2009-12-28 = (2009, 53, 1)`. -/
theorem C5_iso_roundtrip (y m d : ℤ) (hy : 1582 ≤ y) (hy2 : y ≤ 9999)
    (hm : 1 ≤ m) (hm2 : m ≤ 12) (hd : 1 ≤ d)
    (hd2 : d ≤ mdays m + (if m = 2 ∧ is_gregorian_leapyear y = true then 1 else 0))
    (hpost : y = 1582 → 10 ≤ m ∧ (m = 10 → 15 ≤ d)) :
    (G2I ⟨(1582, 10, 15), (2299161, 2299171)⟩ y m d).bind
        (fun t => I2G ⟨(1582, 10, 15), (2299161, 2299171)⟩ t.1 t.2.1 t.2.2) = .ok (y, m, d)
    ∧ G2I ⟨(1582, 10, 15), (2299161, 2299171)⟩ 2003 12 29 = .ok (2004, 1, 1)
    ∧ G2I ⟨(1582, 10, 15), (2299161, 2299171)⟩ 2009 12 28 = .ok (2009, 53, 1) := by
  refine ⟨?_, ?_, ?_⟩
  · rcases em (y = 1582) with h82 | h82
    · subst h82
      obtain ⟨hm10, h15⟩ := hpost rfl
      have hd2' : d ≤ mdays m := by
        rw [if_neg (by rintro ⟨h2, -⟩; omega)] at hd2
        omega
      have h15' : m ≠ 10 ∨ 15 ≤ d := by
        rcases em (m = 10) with h | h
        · exact Or.inr (h15 h)
        · exact Or.inl h
      have hmd : (m = 10 ∧ 15 ≤ d ∧ d ≤ 31) ∨ (m = 11 ∧ 1 ≤ d ∧ d ≤ 30)
          ∨ (m = 12 ∧ 1 ≤ d ∧ d ≤ 31) := by
        simp only [mdays] at hd2'
        split_ifs at hd2' <;> omega
      exact roundtrip_1582 m d hmd
    · exact G2I_I2G_core _ y m d (by omega) hy2 hm hm2 hd hd2
        (check_default y m d (by omega) hy2 hm hm2 hd hd2)
  · rw [G2I_evalZ _ 2003 12 29 (by rw [is_gregorian_iff]; decide) (by decide)
      (by decide) (by decide)]
    decide
  · rw [G2I_evalZ _ 2009 12 28 (by rw [is_gregorian_iff]; decide) (by decide)
      (by decide) (by decide)]
    decide

/-- Witness for C5 at the concrete leap date 2020-02-29. -/
theorem C5_iso_roundtrip_witness :
    (G2I ⟨(1582, 10, 15), (2299161, 2299171)⟩ 2020 2 29).bind
        (fun t => I2G ⟨(1582, 10, 15), (2299161, 2299171)⟩ t.1 t.2.1 t.2.2)
      = .ok (2020, 2, 29) :=
  (C5_iso_roundtrip 2020 2 29 (by norm_num) (by norm_num) (by norm_num) (by norm_num)
    (by norm_num) (by decide) (by decide)).1

end calendar

namespace dt2

open dtmath

/-- `dt2.MINYEAR = -4712`. -/
def MINYEAR : ℤ := -4712

/-- `dt2.MAXYEAR = 9999`. -/
def MAXYEAR : ℤ := 9999

/-- Unit constants of `dt2.py` (`_USEC` .. `_WEEK`), in nanoseconds. -/
def _USEC : ℤ := 1000

def _MSEC : ℤ := 1000 * _USEC

def _SEC : ℤ := 1000 * _MSEC

def _MIN : ℤ := 60 * _SEC

def _HR : ℤ := 60 * _MIN

def _DAY : ℤ := 24 * _HR

def _WEEK : ℤ := 7 * _DAY

/-- The state of a `dt2.TimeDelta`: the three components handed to
`datetime.timedelta.__new__` plus the stored `_total_nanoseconds`. -/
structure TimeDelta where
  days : ℤ
  seconds : ℤ
  microseconds : ℤ
  total_nanoseconds : ℤ
deriving DecidableEq, Repr

/-- The weighted nanosecond sum of `dt2.TimeDelta.__new__` (with integer
arguments the `Decimal` arithmetic and the final `round` are exact). -/
def total_ns (days seconds microseconds nanoseconds milliseconds minutes hours weeks : ℤ) : ℤ :=
  nanoseconds + microseconds * _USEC + milliseconds * _MSEC + seconds * _SEC
    + minutes * _MIN + hours * _HR + days * _DAY + weeks * _WEEK

/-- `dt2.TimeDelta.__new__`: total nanoseconds, Python floor `divmod`
chain into days / seconds / microseconds, and the
`abs(days) > 999999999` overflow guard (integer `divmod` with a
positive divisor is Euclidean division, here written `/` and `%`). -/
def TimeDelta_new (days seconds microseconds nanoseconds milliseconds minutes hours weeks : ℤ) :
    Except PyErr TimeDelta :=
  let t := total_ns days seconds microseconds nanoseconds milliseconds minutes hours weeks
  let d := t / _DAY
  let r := t % _DAY
  let s := r / _SEC
  let r2 := r % _SEC
  let us := r2 / _USEC
  if 999999999 < |d| then .error .overflow else .ok ⟨d, s, us, t⟩

/-- `dt2.Date.min_mjd = MJD(MINYEAR, 1, 1)`. -/
def min_mjd : ℤ := MJDraw (-4712) 1 1

/-- `dt2.Date.max_mjd = MJD(MAXYEAR, 12, 31)`. -/
def max_mjd : ℤ := MJDraw 9999 12 31

theorem min_mjd_val : min_mjd = -2400001 := MJDraw_min

theorem max_mjd_val : max_mjd = 2973483 := MJDraw_max

/-- `dt2._check_date_fields`.  The leap-day branch calls `is_leapyear`,
a name that is neither defined nor imported in `dt2.py`, so every
February date raises `NameError`. -/
def _check_date_fields (year month day : ℤ) : Except PyErr (ℤ × ℤ × ℤ) :=
  if ¬(MINYEAR ≤ year ∧ year ≤ MAXYEAR) then .error .value
  else if ¬(1 ≤ month ∧ month ≤ 12) then .error .value
  else if month = 2 then .error .nameErr
  else if ¬(1 ≤ day ∧ day ≤ mdays month) then .error .value
  else if year = 1582 ∧ month = 10 ∧ 4 < day ∧ day < 15 then .error .value
  else .ok (year, month, day)

/-- `dt2.Date.frommjd`: `ValueError` outside `valid_mjd`, else the date
is rebuilt as `Date(*RMJD(mjd))`, whose constructor validates the triple
with `_check_date_fields`. -/
def frommjd (mjd : ℤ) : Except PyErr (ℤ × ℤ × ℤ) :=
  if ¬(min_mjd ≤ mjd ∧ mjd ≤ max_mjd) then .error .value
  else (RMJD (mjd : ℚ)).bind fun t => _check_date_fields t.1 t.2.1 t.2.2

/-- `dt2.Date.__add__` with a `TimeDelta`, at the day-number level: the
day count is the floor `divmod` of the duration by the one-day
resolution (a nonzero fraction only prints a warning), the shifted day
number is range-checked and rebuilt with `frommjd`, else
`OverflowError`. -/
def date_add (mjd : ℤ) (other : TimeDelta) : Except PyErr (ℤ × ℤ × ℤ) :=
  let days := other.total_nanoseconds / _DAY
  let mjd2 := mjd + days
  if min_mjd ≤ mjd2 ∧ mjd2 ≤ max_mjd then frommjd mjd2 else .error .overflow

/-- `dt2.Date.__sub__` with a `TimeDelta`: as `__add__` with the day
count subtracted. -/
def date_sub (mjd : ℤ) (other : TimeDelta) : Except PyErr (ℤ × ℤ × ℤ) :=
  let days := other.total_nanoseconds / _DAY
  let mjd2 := mjd - days
  if min_mjd ≤ mjd2 ∧ mjd2 ≤ max_mjd then frommjd mjd2 else .error .overflow

/-- `dt2._p`: `y + floor(y/4) - floor(y/100) + floor(y/400)` (the float
divisions are exact on the supported year range). -/
def _p (y : ℤ) : ℤ := y + y / 4 - y / 100 + y / 400

/-- `dt2.iso_weeks_in_year`. -/
def iso_weeks_in_year (y : ℤ) : ℤ :=
  if _p y % 7 = 4 ∨ _p (y - 1) % 7 = 3 then 53 else 52

/-- `dt2.Date._iso` (`isocalendar`), at the year-month-day level.
`self + TimeDelta(n)` is `date_add`, the `Date(...)` constructions go
through `_check_date_fields`, `Date.mjd` is `MJDraw`, `isoweekday` is
`(weekday_nr(mjd + MJD0) - 1) % 7 + 1`, and
`(thursday_date - first_thursday_date).days` is the day-number
difference (`Date.__sub__` of two dates builds `TimeDelta(days=diff)`,
whose `days` component is that difference). -/
def isocalendar (y m d : ℤ) : Except PyErr (ℤ × ℤ × ℤ) :=
  if ¬ is_gregorian y m d then .error .value
  else
    let mjd := MJDraw y m d
    let iso_weekday := (weekday_nr ((mjd : ℚ) + MJD0) - 1) % 7 + 1
    (TimeDelta_new (4 - iso_weekday) 0 0 0 0 0 0 0).bind fun td =>
    (date_add mjd td).bind fun th =>
    let iso_year := th.1
    let weekday_1 := (weekday_nr ((MJDraw iso_year 1 1 : ℚ) + MJD0) - 1) % 7 + 1
    let first_thursday := (4 - weekday_1) % 7 + 1
    (_check_date_fields iso_year 1 first_thursday).bind fun _ =>
    let iso_weeknum := (MJDraw th.1 th.2.1 th.2.2 - MJDraw iso_year 1 first_thursday) / 7 + 1
    .ok (iso_year, iso_weeknum, iso_weekday)

/-- `dt2.Date.fromisocalendar`. -/
def fromisocalendar (year week day : ℤ) : Except PyErr (ℤ × ℤ × ℤ) :=
  if year < 1582 ∨ (year = 1582 ∧ (week < 40 ∨ (week = 40 ∧ day < 5))) then .error .value
  else if 9999 < year then .error .value
  else if week < 1 ∨ iso_weeks_in_year year < week ∨ day < 1 ∨ 7 < day then .error .value
  else
    let weekday_1 := (weekday_nr ((MJDraw year 1 1 : ℚ) + MJD0) - 1) % 7 + 1
    let first_thursday := (4 - weekday_1) % 7 + 1
    (_check_date_fields year 1 first_thursday).bind fun _ =>
    (TimeDelta_new (7 * (week - 1) + day - 4) 0 0 0 0 0 0 0).bind fun td =>
    date_add (MJDraw year 1 first_thursday) td

def digitChar (n : ℕ) : Char := Char.ofNat (48 + n)

def natDigitsAux : ℕ → ℕ → List Char
  | 0, _ => []
  | fuel + 1, n => if n = 0 then [] else natDigitsAux fuel (n / 10) ++ [digitChar (n % 10)]

/-- Decimal digits of a natural number (most significant first; eight
digits of fuel cover the supported year range). -/
def natDigits (n : ℕ) : List Char := if n = 0 then ['0'] else natDigitsAux 8 n

def zfill (w : ℕ) (l : List Char) : List Char := List.replicate (w - l.length) '0' ++ l

/-- Python `f"{n:0Nd}"`: zero padding to width `w`, the sign counting
against the width. -/
def fmt0d (w : ℕ) (n : ℤ) : String :=
  if n < 0 then ⟨'-' :: zfill (w - 1) (natDigits n.natAbs)⟩ else ⟨zfill w (natDigits n.natAbs)⟩

/-- `dt2.Date.isoformat`: `f"{year:04d}-{month:02d}-{day:02d}"`. -/
def isoformat (y m d : ℤ) : String :=
  fmt0d 4 y ++ "-" ++ fmt0d 2 m ++ "-" ++ fmt0d 2 d

/-- The groups of `dt2.Date.dpat`, the pattern
`([+-]?)([0-9]\x7b4\x7d)(?P<dash>-?)(W?)([0-5][0-9])` followed by the
optional `(?:(?P=dash)([0-9]\x7b1,2\x7d))?`. -/
structure DateGroups where
  sign : String
  year : String
  dash : String
  weekf : String
  wm : String
  day : Option String
deriving DecidableEq, Repr

def isDigit (c : Char) : Bool := '0' ≤ c ∧ c ≤ '9'

/-- `re.match` of `dpat` on a character list.  The pattern is
deterministic: each optional piece is forced by the next character (a
sign is never a digit, a dash is never in `[0-5W]`, `W` is not in
`[0-5]`), the trailing day group is greedy (two digits if available) and
matches the dash backreference first, a failing trailing group leaves
the match successful with group `None`, and trailing characters are
ignored (`match`, not `fullmatch`). -/
def datematch (l : List Char) : Option DateGroups :=
  let sgnSplit : String × List Char :=
    match l with
    | c :: rest => if c = '+' ∨ c = '-' then (⟨[c]⟩, rest) else ("", l)
    | [] => ("", l)
  match sgnSplit.2 with
  | c1 :: c2 :: c3 :: c4 :: l2 =>
    if isDigit c1 ∧ isDigit c2 ∧ isDigit c3 ∧ isDigit c4 then
      let yr : String := ⟨[c1, c2, c3, c4]⟩
      let dashSplit : String × List Char :=
        match l2 with
        | '-' :: rest => ("-", rest)
        | _ => ("", l2)
      let wSplit : String × List Char :=
        match dashSplit.2 with
        | 'W' :: rest => ("W", rest)
        | _ => ("", dashSplit.2)
      match wSplit.2 with
      | d1 :: d2 :: l5 =>
        if ('0' ≤ d1 ∧ d1 ≤ '5') ∧ isDigit d2 then
          let tail : Option (List Char) :=
            if dashSplit.1 = "-" then
              match l5 with
              | '-' :: rest => some rest
              | _ => none
            else some l5
          let day : Option String :=
            match tail with
            | none => none
            | some l6 =>
              match l6 with
              | e1 :: e2 :: _ =>
                if isDigit e1 then
                  if isDigit e2 then some ⟨[e1, e2]⟩ else some ⟨[e1]⟩
                else none
              | [e1] => if isDigit e1 then some ⟨[e1]⟩ else none
              | [] => none
          some ⟨sgnSplit.1, yr, dashSplit.1, wSplit.1, ⟨[d1, d2]⟩, day⟩
        else none
      | _ => none
    else none
  | _ => none

/-- Python `int` on a decimal-digit string (the only strings it is
applied to here). -/
def strToInt (s : String) : ℤ :=
  (s.data.foldl (fun a c => 10 * a + (c.toNat - 48)) 0 : ℕ)

/-- `dt2.Date.fromisoformat`.  The year sign factor is computed by the
source as `int(year) * (1 - 2 * (year == '-'))`, comparing the
four-digit year group itself (never equal to `"-"`), not the sign
group. -/
def fromisoformat (s : String) : Except PyErr (ℤ × ℤ × ℤ) :=
  match datematch s.data with
  | none => .error .value
  | some g =>
    let year : ℤ := strToInt g.year * (1 - 2 * (if g.year = "-" then 1 else 0))
    if year < MINYEAR ∨ MAXYEAR < year then .error .value
    else if g.weekf = "W" then
      let week := strToInt g.wm
      let day := strToInt (g.day.getD "1")
      (isocalendar year 12 28).bind fun last =>
      if week < 1 ∨ last.2.1 < week ∨ day < 1 ∨ 7 < day then .error .value
      else fromisocalendar year week day
    else
      match g.day with
      | none => .error .value
      | some ds => _check_date_fields year (strToInt g.wm) (strToInt ds)

/-- C6 (amended): `dt2.TimeDelta` sums its unit arguments at nanosecond
resolution and normalizes by Python floor division (not truncation) into
days, seconds-of-day and microseconds with non-negative sub-day
remainders; in particular `Duration(days=-2, seconds=-1)` decomposes
with a days component at most `-1` and a non-negative seconds-of-day
remainder, and `Duration(hours=25)` equals `Duration(days=1, hours=1)`.
(The older `dt.TimeDelta` truncates instead; see the counterexample
theorem.) -/
theorem C6_floor_normalization :
    (∀ dy s us ns ms mi hr wk : ℤ, ∀ r : TimeDelta,
      TimeDelta_new dy s us ns ms mi hr wk = .ok r →
        r.total_nanoseconds = total_ns dy s us ns ms mi hr wk
        ∧ r.days * _DAY + r.seconds * _SEC + r.microseconds * _USEC
            + r.total_nanoseconds % _USEC = r.total_nanoseconds
        ∧ 0 ≤ r.seconds ∧ r.seconds < 86400
        ∧ 0 ≤ r.microseconds ∧ r.microseconds < 1000000
        ∧ 0 ≤ r.total_nanoseconds % _USEC ∧ r.total_nanoseconds % _USEC < 1000)
    ∧ (∃ r : TimeDelta, TimeDelta_new (-2) (-1) 0 0 0 0 0 0 = .ok r
        ∧ r.days ≤ -1 ∧ 0 ≤ r.seconds)
    ∧ TimeDelta_new 0 0 0 0 0 0 25 0 = TimeDelta_new 1 0 0 0 0 0 1 0 := by
  refine ⟨?_, ⟨⟨-3, 86399, 0, -172801000000000⟩, by decide, by decide, by decide⟩, by decide⟩
  intro dy s us ns ms mi hr wk r hok
  simp only [TimeDelta_new] at hok
  split_ifs at hok with hov
  rw [Except.ok.injEq] at hok
  subst hok
  refine ⟨rfl, ?_, ?_, ?_, ?_, ?_, ?_, ?_⟩ <;>
    simp only [total_ns, _WEEK, _DAY, _HR, _MIN, _SEC, _MSEC, _USEC] <;> omega

/-- Witness for C6 at `Duration(days=-2, seconds=-1)`: the constructed
components are `days = -3`, `seconds = 86399`, `microseconds = 0`. -/
theorem C6_floor_normalization_witness :
    (⟨-3, 86399, 0, -172801000000000⟩ : TimeDelta).total_nanoseconds
        = total_ns (-2) (-1) 0 0 0 0 0 0
    ∧ (⟨-3, 86399, 0, -172801000000000⟩ : TimeDelta).days * _DAY
          + (⟨-3, 86399, 0, -172801000000000⟩ : TimeDelta).seconds * _SEC
          + (⟨-3, 86399, 0, -172801000000000⟩ : TimeDelta).microseconds * _USEC
          + (⟨-3, 86399, 0, -172801000000000⟩ : TimeDelta).total_nanoseconds % _USEC
        = (⟨-3, 86399, 0, -172801000000000⟩ : TimeDelta).total_nanoseconds
    ∧ 0 ≤ (⟨-3, 86399, 0, -172801000000000⟩ : TimeDelta).seconds
    ∧ (⟨-3, 86399, 0, -172801000000000⟩ : TimeDelta).seconds < 86400
    ∧ 0 ≤ (⟨-3, 86399, 0, -172801000000000⟩ : TimeDelta).microseconds
    ∧ (⟨-3, 86399, 0, -172801000000000⟩ : TimeDelta).microseconds < 1000000
    ∧ 0 ≤ (⟨-3, 86399, 0, -172801000000000⟩ : TimeDelta).total_nanoseconds % _USEC
    ∧ (⟨-3, 86399, 0, -172801000000000⟩ : TimeDelta).total_nanoseconds % _USEC < 1000 :=
  C6_floor_normalization.1 (-2) (-1) 0 0 0 0 0 0 ⟨-3, 86399, 0, -172801000000000⟩ (by decide)

/-- C9: the `isoformat` / `fromisoformat` round trip FAILS for negative
years.  `Date(-1000, 3, 4).isoformat()` is `"-1000-03-04"`, but
`fromisoformat` computes the sign factor from `year == '-'` — comparing
the four-digit year group instead of the sign group, so the factor is
always `1` — and parses the string back as the year `+1000`. -/
theorem C9_fromisoformat_sign_bug :
    isoformat (-1000) 3 4 = "-1000-03-04"
    ∧ fromisoformat "-1000-03-04" = .ok (1000, 3, 4)
    ∧ ((1000 : ℤ), (3 : ℤ), (4 : ℤ)) ≠ ((-1000 : ℤ), (3 : ℤ), (4 : ℤ)) := by
  refine ⟨by decide, by decide, by decide⟩

/-- The day number of 2024-01-31 in the `dt2` scale. -/
theorem MJDraw_2024_jan31 : dtmath.MJDraw 2024 1 31 = 60340 := by
  have h := zday_greg 2024 1 31 (by norm_num) (by norm_num) (by norm_num)
    (fun hc => absurd ((reform_lt_iffZ 2024 1 31).mp hc) (by decide))
  have hG : GD 2024 1 31 = 738916 := by decide
  omega

/-- C10 refutation: `Date(2024, 1, 31) + TimeDelta(days=1)` is a
whole-number-of-days shift landing well inside `[min_mjd, max_mjd]`,
yet `__add__` raises `NameError` instead of returning the date
2024-02-01: `frommjd` rebuilds the result as `Date(*RMJD(mjd))`, and the
constructor's `_check_date_fields` evaluates the undefined name
`is_leapyear` on every February date. -/
theorem C10_february_nameerror :
    date_add (dtmath.MJDraw 2024 1 31) ⟨1, 0, 0, 86400000000000⟩ = .error .nameErr := by
  rw [MJDraw_2024_jan31]
  have hd1 : (86400000000000 : ℤ) / _DAY = 1 := by decide
  simp only [date_add, hd1]
  rw [if_pos ⟨by rw [min_mjd_val]; norm_num, by rw [max_mjd_val]; norm_num⟩]
  simp only [frommjd]
  rw [if_neg (not_not_intro ⟨by rw [min_mjd_val]; norm_num, by rw [max_mjd_val]; norm_num⟩)]
  rw [RMJD_int (60340 + 1) (by norm_num)]
  rw [show meeusInvT (60340 + 1 + 2400001) = (2024, 2, 1) from by decide]
  rw [if_neg (by decide)]
  decide

/-- Counterexample to C7 as frozen: `dt2.Date.__add__` does NOT raise on
a duration with a nonzero sub-day fraction — it only prints a warning,
floors the duration to whole days and returns a date:
`Date(2000, 1, 1) + TimeDelta(hours=12)` is `Date(2000, 1, 1)`. -/
theorem C7_dt2_warns_cx :
    ∃ t : TimeDelta, TimeDelta_new 0 0 0 0 0 0 12 0 = .ok t
      ∧ t.total_nanoseconds % _DAY ≠ 0
      ∧ date_add 51544 t = .ok (2000, 1, 1) := by
  refine ⟨⟨0, 43200, 0, 43200000000000⟩, by decide, by decide, ?_⟩
  have e1 : date_add 51544 ⟨0, 43200, 0, 43200000000000⟩ = frommjd 51544 := by
    have hd0 : (43200000000000 : ℤ) / _DAY = 0 := by decide
    simp only [date_add, hd0, add_zero]
    rw [if_pos ⟨by rw [min_mjd_val]; norm_num, by rw [max_mjd_val]; norm_num⟩]
  rw [e1]
  simp only [frommjd]
  rw [if_neg (not_not_intro ⟨by rw [min_mjd_val]; norm_num, by rw [max_mjd_val]; norm_num⟩)]
  rw [RMJD_int 51544 (by norm_num)]
  rw [show meeusInvT (51544 + 2400001) = (2000, 1, 1) from by decide]
  rw [if_neg (by decide)]
  decide

end dt2

namespace dt

/-- Unit constants of `dt.py` (`_USEC` .. `_DAY`), in nanoseconds. -/
def _USEC : ℤ := 1000

def _MSEC : ℤ := 1000 * _USEC

def _SEC : ℤ := 1000 * _MSEC

def _MIN : ℤ := 60 * _SEC

def _HR : ℤ := 60 * _MIN

def _DAY : ℤ := 24 * _HR

/-- The state of a `dt.TimeDelta`: the `Decimal` total in nanoseconds
and the seven components set by `__init__`. -/
structure TimeDelta where
  total : ℤ
  days : ℤ
  hours : ℤ
  minutes : ℤ
  seconds : ℤ
  milliseconds : ℤ
  microseconds : ℤ
  nanoseconds : ℤ
deriving DecidableEq, Repr

/-- `dt.TimeDelta.__new__` + `__init__`: the weighted nanosecond total
(argument order `nanoseconds` .. `days`, no weeks), then the component
chain computed with `Decimal.__divmod__`, which truncates toward zero
(`Int.tdiv` / `Int.tmod`). -/
def TimeDelta_mk (nanoseconds microseconds milliseconds seconds minutes hours days : ℤ) :
    TimeDelta :=
  let t := nanoseconds + microseconds * _USEC + milliseconds * _MSEC + seconds * _SEC
    + minutes * _MIN + hours * _HR + days * _DAY
  let d := Int.tdiv t _DAY
  let r1 := Int.tmod t _DAY
  let h := Int.tdiv r1 _HR
  let r2 := Int.tmod r1 _HR
  let mi := Int.tdiv r2 _MIN
  let r3 := Int.tmod r2 _MIN
  let s := Int.tdiv r3 _SEC
  let r4 := Int.tmod r3 _SEC
  let ms := Int.tdiv r4 _MSEC
  let r5 := Int.tmod r4 _MSEC
  let us := Int.tdiv r5 _USEC
  let r6 := Int.tmod r5 _USEC
  ⟨t, d, h, mi, s, ms, us, r6⟩

/-- `dt.Date.__init__` validation: year and month ranges and
`day <= mdays[month]` with NO leap-year allowance (February 29 is always
rejected), then the 1582 reform-gap rejection. -/
def Date_new (year month day : ℤ) : Except PyErr (ℤ × ℤ × ℤ) :=
  if year < -4712 ∨ 9999 < year ∨ month < 1 ∨ 12 < month ∨ day < 1 ∨ dtmath.mdays month < day
    then .error .value
  else if year = 1582 ∧ month = 10 ∧ 4 < day ∧ day < 15 then .error .value
  else .ok (year, month, day)

/-- `dt.Date.__add__` with a `TimeDelta`, at the day-number level:
`divmod(b, resolution)` is `Decimal.__divmod__` by the one-day
resolution (truncating), a nonzero fraction raises `ValueError`, else
the shifted date is rebuilt as `Date(*RMJD(...))` through the `Date`
constructor validation. -/
def date_add_delta (mjd : ℤ) (b : TimeDelta) : Except PyErr (ℤ × ℤ × ℤ) :=
  let days := Int.tdiv b.total _DAY
  let fraction := Int.tmod b.total _DAY
  if fraction ≠ 0 then .error .value
  else (dtmath.RMJD ((mjd + days : ℤ) : ℚ)).bind fun t => Date_new t.1 t.2.1 t.2.2

/-- `dt.Date.__sub__` with a `TimeDelta`: as `__add__`, subtracting. -/
def date_sub_delta (mjd : ℤ) (b : TimeDelta) : Except PyErr (ℤ × ℤ × ℤ) :=
  let days := Int.tdiv b.total _DAY
  let fraction := Int.tmod b.total _DAY
  if fraction ≠ 0 then .error .value
  else (dtmath.RMJD ((mjd - days : ℤ) : ℚ)).bind fun t => Date_new t.1 t.2.1 t.2.2

/-- Counterexample to C6 as frozen: the cited `dt.TimeDelta.__init__`
decomposes with truncating `Decimal.__divmod__`, so
`TimeDelta(seconds=-1, days=-2)` reports `days = -2` with the NEGATIVE
seconds-of-day remainder `-1`. -/
theorem C6_truncation_cx :
    (TimeDelta_mk 0 0 0 (-1) 0 0 (-2)).days = -2
    ∧ (TimeDelta_mk 0 0 0 (-1) 0 0 (-2)).seconds = -1
    ∧ ¬(0 ≤ (TimeDelta_mk 0 0 0 (-1) 0 0 (-2)).seconds) := by
  refine ⟨by decide, by decide, by decide⟩

/-- C7 (amended): in the `dt.py` module, date±duration arithmetic
accepts exactly the whole-day durations: a duration with a nonzero
sub-day fraction raises the `ValueError` "nonzero fraction in date
arithmetic" and returns no date, while a whole-day duration shifts the
day number by its number of days and rebuilds the result through the
`Date` constructor, whose validation can itself raise `ValueError`
(February 29 and out-of-range years are rejected).  (The `dt2.py`
module does not raise on fractions; see the counterexample theorem.) -/
theorem C7_fraction_error (mjd : ℤ) (b : TimeDelta) :
    (Int.tmod b.total _DAY ≠ 0 →
        date_add_delta mjd b = .error .value ∧ date_sub_delta mjd b = .error .value)
    ∧ (Int.tmod b.total _DAY = 0 →
        date_add_delta mjd b
          = (dtmath.RMJD ((mjd + Int.tdiv b.total _DAY : ℤ) : ℚ)).bind
              (fun t => Date_new t.1 t.2.1 t.2.2)
        ∧ date_sub_delta mjd b
          = (dtmath.RMJD ((mjd - Int.tdiv b.total _DAY : ℤ) : ℚ)).bind
              (fun t => Date_new t.1 t.2.1 t.2.2)) := by
  constructor
  · intro h
    constructor
    · simp only [date_add_delta]
      rw [if_pos h]
    · simp only [date_sub_delta]
      rw [if_pos h]
  · intro h
    constructor
    · simp only [date_add_delta]
      rw [if_neg (not_not_intro h)]
    · simp only [date_sub_delta]
      rw [if_neg (not_not_intro h)]

/-- Witness for C7 at `Date(2000, 1, 1) ± TimeDelta(hours=12)`: the
half-day duration is rejected with `ValueError` by both operations. -/
theorem C7_fraction_error_witness :
    Int.tmod (TimeDelta_mk 0 0 0 0 0 12 0).total _DAY ≠ 0
    ∧ date_add_delta 51544 (TimeDelta_mk 0 0 0 0 0 12 0) = .error .value
    ∧ date_sub_delta 51544 (TimeDelta_mk 0 0 0 0 0 12 0) = .error .value :=
  ⟨by decide, (C7_fraction_error 51544 (TimeDelta_mk 0 0 0 0 0 12 0)).1 (by decide)⟩

end dt

end Cnav
